import Mathlib

/-!
A shallow embedding of the Stipple bytecode virtual machine
(`src/src/vm.c` together with the type/constant definitions of its header)
and proofs of properties of the execution engine.

Modelling conventions:
* machine integers are `Nat` (raw 4-byte patterns, reduced `% 2^32` where the
  C type forces truncation); signed reads reinterpret the pattern in two's
  complement via `toSigned32`;
* C arrays become total functions out of `Nat`; the code only ever accesses
  them through the same bounds checks the C performs;
* the four-byte words that `memcpy` copies out of program memory or buffer
  storage are composed from bytes in a fixed (little-endian) order, standing
  for the single host byte order the C code is documented to depend on;
* IEEE-754 single-precision operations and the C library text-parsing calls
  are the host's: they are parameters (`HostOps`) mapping 32-bit float bit
  patterns to 32-bit float bit patterns, so every theorem below holds for
  every host instantiation;
* `stdin`/`stdout` are modelled as byte lists threaded beside the VM state.
-/

/- ================= enumerations from the header ================= -/

inductive vm_status_t where
  | VM_OK
  | VM_ERR_STACK_OVERFLOW
  | VM_ERR_STACK_UNDERFLOW
  | VM_ERR_DIV_BY_ZERO
  | VM_ERR_INVALID_OPCODE
  | VM_ERR_TYPE_MISMATCH
  | VM_ERR_BOUNDS
  | VM_ERR_INVALID_GLOBAL_IDX
  | VM_ERR_INVALID_LOCAL_IDX
  | VM_ERR_INVALID_STACK_VAR_IDX
  | VM_ERR_INVALID_BUFFER_IDX
  | VM_ERR_INVALID_BUFFER_POS
  | VM_ERR_INVALID_PC
  | VM_ERR_INVALID_INSTRUCTION
  | VM_ERR_PROGRAM_TOO_LARGE
  | VM_ERR_OVERFLOW
  | VM_ERR_HALT
  deriving DecidableEq, Repr

open vm_status_t

inductive var_value_type_t where
  | V_VOID
  | V_I32
  | V_U32
  | V_FLOAT
  | V_U8
  | V_U16
  | V_UC
  | V_GLOBAL_VAR_IDX
  | V_STACK_VAR_IDX
  | V_BUF_IDX
  | V_BUF_POS
  deriving DecidableEq, Repr

open var_value_type_t

inductive membuf_type_t where
  | MB_VOID
  | MB_U8
  | MB_U16
  | MB_I32
  | MB_U32
  | MB_FLOAT
  deriving DecidableEq, Repr

open membuf_type_t

/- ================= configuration constants ================= -/

def G_VARS_COUNT : Nat := 256
def G_MEMBUF_COUNT : Nat := 256
def MEMBUF_U8_COUNT : Nat := 256
def MEMBUF_U16_COUNT : Nat := 128
def MEMBUF_I32_COUNT : Nat := 64
def MEMBUF_U32_COUNT : Nat := 64
def MEMBUF_F32_COUNT : Nat := 64
def STACK_DEPTH : Nat := 32
def STACK_VAR_COUNT : Nat := 16
def STACK_LOCALS_COUNT : Nat := 64
def PROGRAM_MAX_SIZE : Nat := 65536

def FLAG_ZERO : Nat := 1
def FLAG_LESS : Nat := 2
def FLAG_GREATER : Nat := 4

/- ================= raw 32-bit word helpers ================= -/

/-- Reinterpret a 4-byte pattern as a signed 32-bit integer (two's complement),
the effect of reading the `i32` member of the C value union. -/
def toSigned32 (n : Nat) : Int :=
  if n < 2 ^ 31 then (n : Int) else (n : Int) - 2 ^ 32

/-- The 4-byte pattern that storing a signed 32-bit integer leaves in the
union (two's-complement wrap, matching the documented host convention). -/
def ofInt32 (i : Int) : Nat := (i % (2 ^ 32 : Int)).toNat

/- ================= value and buffer models ================= -/

/-- Tagged VM value: the `type` discriminant plus the raw 4-byte pattern of
the `val` union (every union member is 4 bytes wide). -/
structure var_value_t where
  type : var_value_type_t
  raw : Nat
  deriving DecidableEq, Repr

/-- Typed memory buffer: discriminant plus the 256 bytes of the storage
union, kept as a byte function; the typed views (`u8x256`, `u16x128`,
`i32x64`, `u32x64`, `f32x64`) are read and written through the accessors
below. -/
structure membuf_t where
  type : membuf_type_t
  bytes : Nat → Nat

def membuf_u8_get (b : membuf_t) (i : Nat) : Nat := b.bytes i

def membuf_u16_get (b : membuf_t) (i : Nat) : Nat :=
  b.bytes (2 * i) + 256 * b.bytes (2 * i + 1)

def membuf_w32_get (b : membuf_t) (i : Nat) : Nat :=
  b.bytes (4 * i) + 256 * b.bytes (4 * i + 1) +
    65536 * b.bytes (4 * i + 2) + 16777216 * b.bytes (4 * i + 3)

def membuf_u8_set (b : membuf_t) (i v : Nat) : membuf_t :=
  { b with bytes := Function.update b.bytes i (v % 256) }

def membuf_u16_set (b : membuf_t) (i v : Nat) : membuf_t :=
  let f := Function.update b.bytes (2 * i) (v % 256)
  { b with bytes := Function.update f (2 * i + 1) (v / 256 % 256) }

def membuf_w32_set (b : membuf_t) (i v : Nat) : membuf_t :=
  let f0 := Function.update b.bytes (4 * i) (v % 256)
  let f1 := Function.update f0 (4 * i + 1) (v / 256 % 256)
  let f2 := Function.update f1 (4 * i + 2) (v / 65536 % 256)
  { b with bytes := Function.update f2 (4 * i + 3) (v / 16777216 % 256) }

/-- `get_buffer_capacity` from the header. -/
def get_buffer_capacity : membuf_type_t → Nat
  | MB_U8 => MEMBUF_U8_COUNT
  | MB_U16 => MEMBUF_U16_COUNT
  | MB_I32 => MEMBUF_I32_COUNT
  | MB_U32 => MEMBUF_U32_COUNT
  | MB_FLOAT => MEMBUF_F32_COUNT
  | MB_VOID => 0

/- ================= frames and machine state ================= -/

structure stack_frame_t where
  stack_vars : Nat → var_value_t
  locals : Nat → var_value_t
  ret_val : var_value_t
  return_addr : Nat

structure vm_state_t where
  g_vars : Nat → var_value_t
  g_membuf : Nat → membuf_t
  stack_frames : Nat → stack_frame_t
  sp : Nat
  program : Nat → Nat
  program_len : Nat
  pc : Nat
  flags : Nat
  last_error : vm_status_t

/-- The two text streams (`stdin` bytes remaining, `stdout` bytes emitted). -/
structure StdStreams where
  inp : List Nat
  out : List Nat
  deriving DecidableEq, Repr

/-- Host-dependent primitives: IEEE-754 single-precision arithmetic on raw
bit patterns, the float/integer conversions, float formatting, and the
`scanf`-family text parsers.  Every theorem is proved for an arbitrary
`HostOps`. -/
structure HostOps where
  f_add : Nat → Nat → Nat
  f_sub : Nat → Nat → Nat
  f_mul : Nat → Nat → Nat
  f_div : Nat → Nat → Nat
  f_neg : Nat → Nat
  f_abs : Nat → Nat
  f_sqrt : Nat → Nat
  f_lt : Nat → Nat → Bool
  f_gt : Nat → Nat → Bool
  i32_to_f32 : Nat → Nat
  u32_to_f32 : Nat → Nat
  f32_to_i32 : Nat → Nat
  f32_to_u32 : Nat → Nat
  format_f32 : Nat → List Nat
  scan_i32 : List Nat → Option Int × List Nat
  scan_u32 : List Nat → Option Nat × List Nat
  scan_f32 : List Nat → Option Nat × List Nat

/-- A trivial host instantiation, used to build concrete witness states. -/
def hostZero : HostOps where
  f_add := fun _ _ => 0
  f_sub := fun _ _ => 0
  f_mul := fun _ _ => 0
  f_div := fun _ _ => 0
  f_neg := fun _ => 0
  f_abs := fun _ => 0
  f_sqrt := fun _ => 0
  f_lt := fun _ _ => false
  f_gt := fun _ _ => false
  i32_to_f32 := fun _ => 0
  u32_to_f32 := fun _ => 0
  f32_to_i32 := fun _ => 0
  f32_to_u32 := fun _ => 0
  format_f32 := fun _ => []
  scan_i32 := fun l => (none, l)
  scan_u32 := fun l => (none, l)
  scan_f32 := fun l => (none, l)

/- ================= validation primitives (vm.c) ================= -/

def validate_global_idx (idx : Nat) : Bool := idx < G_VARS_COUNT
def validate_local_idx (idx : Nat) : Bool := idx < STACK_LOCALS_COUNT
def validate_stack_var_idx (idx : Nat) : Bool := idx < STACK_VAR_COUNT
def validate_buffer_idx (idx : Nat) : Bool := idx < G_MEMBUF_COUNT
def validate_buffer_pos (t : membuf_type_t) (pos : Nat) : Bool :=
  pos < get_buffer_capacity t

/- ================= init / load ================= -/

def void_value : var_value_t := ⟨V_VOID, 0⟩

def init_frame : stack_frame_t :=
  { stack_vars := fun _ => void_value
    locals := fun _ => void_value
    ret_val := void_value
    return_addr := 0 }

/-- `vm_init`: zero the whole state and set every value/buffer tag to void. -/
def vm_init : vm_state_t :=
  { g_vars := fun _ => void_value
    g_membuf := fun _ => ⟨MB_VOID, fun _ => 0⟩
    stack_frames := fun _ => init_frame
    sp := 0
    program := fun _ => 0
    program_len := 0
    pc := 0
    flags := 0
    last_error := VM_OK }

/-- `vm_load_program`: reject oversize programs, else copy the bytes in and
reset `pc`/`last_error` (the rest of the state, frames included, is kept). -/
def vm_load_program (vm : vm_state_t) (p : List Nat) : vm_status_t × vm_state_t :=
  if p.length > PROGRAM_MAX_SIZE then
    (VM_ERR_PROGRAM_TOO_LARGE, { vm with last_error := VM_ERR_PROGRAM_TOO_LARGE })
  else
    (VM_OK,
      { vm with
        program := fun i => if i < p.length then p.getD i 0 else vm.program i
        program_len := p.length
        pc := 0
        last_error := VM_OK })

/- ================= opcodes ================= -/

inductive opcode_t where
  | OP_NOP | OP_HALT | OP_JMP | OP_JZ | OP_JNZ | OP_JLT | OP_JGT | OP_JLE
  | OP_JGE | OP_CALL | OP_RET
  | OP_LOAD_G | OP_LOAD_L | OP_LOAD_S | OP_LOAD_I_I32 | OP_LOAD_I_U32
  | OP_LOAD_I_F32 | OP_LOAD_RET
  | OP_STORE_G | OP_STORE_L | OP_STORE_S | OP_STORE_RET
  | OP_ADD_I32 | OP_SUB_I32 | OP_MUL_I32 | OP_DIV_I32 | OP_MOD_I32
  | OP_NEG_I32
  | OP_ADD_U32 | OP_SUB_U32 | OP_MUL_U32 | OP_DIV_U32 | OP_MOD_U32
  | OP_ADD_F32 | OP_SUB_F32 | OP_MUL_F32 | OP_DIV_F32 | OP_NEG_F32
  | OP_ABS_F32 | OP_SQRT_F32
  | OP_AND_U32 | OP_OR_U32 | OP_XOR_U32 | OP_NOT_U32 | OP_SHL_U32
  | OP_SHR_U32
  | OP_CMP_I32 | OP_CMP_U32 | OP_CMP_F32
  | OP_I32_TO_U32 | OP_U32_TO_I32 | OP_I32_TO_F32 | OP_U32_TO_F32
  | OP_F32_TO_I32 | OP_F32_TO_U32
  | OP_BUF_READ | OP_BUF_WRITE | OP_BUF_LEN | OP_BUF_CLEAR
  | OP_STR_CAT | OP_STR_COPY | OP_STR_LEN | OP_STR_CMP | OP_STR_CHR
  | OP_STR_SET_CHR
  | OP_PRINT_I32 | OP_PRINT_U32 | OP_PRINT_F32 | OP_PRINT_STR | OP_PRINTLN
  | OP_READ_I32 | OP_READ_U32 | OP_READ_F32 | OP_READ_STR
  | OP_UNKNOWN
  deriving DecidableEq, Repr

open opcode_t

/-- Map the opcode byte to the handler the C `switch` dispatches to;
every byte outside the enumeration falls into the `default` arm. -/
def decode_opcode (n : Nat) : opcode_t :=
  match n with
  | 0x00 => OP_NOP | 0x01 => OP_HALT | 0x02 => OP_JMP | 0x03 => OP_JZ
  | 0x04 => OP_JNZ | 0x05 => OP_JLT | 0x06 => OP_JGT | 0x07 => OP_JLE
  | 0x08 => OP_JGE | 0x09 => OP_CALL | 0x0A => OP_RET
  | 0x10 => OP_LOAD_G | 0x11 => OP_LOAD_L | 0x12 => OP_LOAD_S
  | 0x13 => OP_LOAD_I_I32 | 0x14 => OP_LOAD_I_U32 | 0x15 => OP_LOAD_I_F32
  | 0x16 => OP_LOAD_RET
  | 0x20 => OP_STORE_G | 0x21 => OP_STORE_L | 0x22 => OP_STORE_S
  | 0x23 => OP_STORE_RET
  | 0x30 => OP_ADD_I32 | 0x31 => OP_SUB_I32 | 0x32 => OP_MUL_I32
  | 0x33 => OP_DIV_I32 | 0x34 => OP_MOD_I32 | 0x35 => OP_NEG_I32
  | 0x36 => OP_ADD_U32 | 0x37 => OP_SUB_U32 | 0x38 => OP_MUL_U32
  | 0x39 => OP_DIV_U32 | 0x3A => OP_MOD_U32
  | 0x40 => OP_ADD_F32 | 0x41 => OP_SUB_F32 | 0x42 => OP_MUL_F32
  | 0x43 => OP_DIV_F32 | 0x44 => OP_NEG_F32 | 0x45 => OP_ABS_F32
  | 0x46 => OP_SQRT_F32
  | 0x50 => OP_AND_U32 | 0x51 => OP_OR_U32 | 0x52 => OP_XOR_U32
  | 0x53 => OP_NOT_U32 | 0x54 => OP_SHL_U32 | 0x55 => OP_SHR_U32
  | 0x60 => OP_CMP_I32 | 0x61 => OP_CMP_U32 | 0x62 => OP_CMP_F32
  | 0x70 => OP_I32_TO_U32 | 0x71 => OP_U32_TO_I32 | 0x72 => OP_I32_TO_F32
  | 0x73 => OP_U32_TO_F32 | 0x74 => OP_F32_TO_I32 | 0x75 => OP_F32_TO_U32
  | 0x80 => OP_BUF_READ | 0x81 => OP_BUF_WRITE | 0x82 => OP_BUF_LEN
  | 0x83 => OP_BUF_CLEAR
  | 0x90 => OP_STR_CAT | 0x91 => OP_STR_COPY | 0x92 => OP_STR_LEN
  | 0x93 => OP_STR_CMP | 0x94 => OP_STR_CHR | 0x95 => OP_STR_SET_CHR
  | 0xA0 => OP_PRINT_I32 | 0xA1 => OP_PRINT_U32 | 0xA2 => OP_PRINT_F32
  | 0xA3 => OP_PRINT_STR | 0xA4 => OP_PRINTLN
  | 0xA5 => OP_READ_I32 | 0xA6 => OP_READ_U32 | 0xA7 => OP_READ_F32
  | 0xA8 => OP_READ_STR
  | _ => OP_UNKNOWN

/- ================= stack-var access helpers ================= -/

/-- `get_stack_var`: bounds-checked pointer into the current frame. -/
def get_stack_var (vm : vm_state_t) (idx : Nat) : Option var_value_t :=
  if idx < STACK_VAR_COUNT then some ((vm.stack_frames vm.sp).stack_vars idx)
  else none

/-- Writing through the pointer `get_stack_var` returned. -/
def set_stack_var (vm : vm_state_t) (idx : Nat) (v : var_value_t) : vm_state_t :=
  let fr := vm.stack_frames vm.sp
  let fr' := { fr with stack_vars := Function.update fr.stack_vars idx v }
  { vm with stack_frames := Function.update vm.stack_frames vm.sp fr' }

def get_global_var (vm : vm_state_t) (idx : Nat) : Option var_value_t :=
  if idx < G_VARS_COUNT then some (vm.g_vars idx) else none

def set_global_var (vm : vm_state_t) (idx : Nat) (v : var_value_t) : vm_state_t :=
  { vm with g_vars := Function.update vm.g_vars idx v }

def get_local_var (vm : vm_state_t) (idx : Nat) : Option var_value_t :=
  if idx < STACK_LOCALS_COUNT then some ((vm.stack_frames vm.sp).locals idx)
  else none

def set_local_var (vm : vm_state_t) (idx : Nat) (v : var_value_t) : vm_state_t :=
  let fr := vm.stack_frames vm.sp
  let fr' := { fr with locals := Function.update fr.locals idx v }
  { vm with stack_frames := Function.update vm.stack_frames vm.sp fr' }

def set_membuf (vm : vm_state_t) (idx : Nat) (b : membuf_t) : vm_state_t :=
  { vm with g_membuf := Function.update vm.g_membuf idx b }

/- ================= generic handler shapes ================= -/

/-- Three-slot handler shape shared by the binary arithmetic, bitwise and
float opcodes: fetch dest/src1/src2 (`operand`, `imm1 & 0xFF`, `imm2 & 0xFF`),
require both source tags to equal `req`, then run the opcode-specific
computation, which either fails (`DIV_BY_ZERO`, `BOUNDS`) or produces the
value written to dest. -/
def arith3 (vm : vm_state_t) (opnd i1 i2 : Nat) (req : var_value_type_t)
    (f : var_value_t → var_value_t → vm_status_t ⊕ var_value_t) :
    vm_status_t × vm_state_t :=
  match get_stack_var vm opnd, get_stack_var vm (i1 % 256),
      get_stack_var vm (i2 % 256) with
  | some _, some s1, some s2 =>
    if s1.type = req ∧ s2.type = req then
      match f s1 s2 with
      | Sum.inl e => (e, vm)
      | Sum.inr v => (VM_OK, set_stack_var vm opnd v)
    else (VM_ERR_TYPE_MISMATCH, vm)
  | _, _, _ => (VM_ERR_INVALID_STACK_VAR_IDX, vm)

/-- Two-slot handler shape shared by the unary opcodes (negate, abs, sqrt,
bitwise not, the six conversions): dest is `operand`, src is `imm1 & 0xFF`. -/
def arith2 (vm : vm_state_t) (opnd i1 : Nat) (req : var_value_type_t)
    (f : var_value_t → var_value_t) : vm_status_t × vm_state_t :=
  match get_stack_var vm opnd, get_stack_var vm (i1 % 256) with
  | some _, some s =>
    if s.type = req then (VM_OK, set_stack_var vm opnd (f s))
    else (VM_ERR_TYPE_MISMATCH, vm)
  | _, _ => (VM_ERR_INVALID_STACK_VAR_IDX, vm)

/-- Flag byte assembled from the three comparison bits. -/
def mkflags (z l g : Bool) : Nat :=
  (if z then FLAG_ZERO else 0) + (if l then FLAG_LESS else 0) +
    (if g then FLAG_GREATER else 0)

/-- Comparison handler shape (`CMP_I32`/`CMP_U32`/`CMP_F32`): two sources
from `imm1 & 0xFF`, `imm2 & 0xFF`; clears then sets the flags. -/
def cmp2 (vm : vm_state_t) (i1 i2 : Nat) (req : var_value_type_t)
    (fl : var_value_t → var_value_t → Nat) : vm_status_t × vm_state_t :=
  match get_stack_var vm (i1 % 256), get_stack_var vm (i2 % 256) with
  | some s1, some s2 =>
    if s1.type = req ∧ s2.type = req then (VM_OK, { vm with flags := fl s1 s2 })
    else (VM_ERR_TYPE_MISMATCH, vm)
  | _, _ => (VM_ERR_INVALID_STACK_VAR_IDX, vm)

/-- Conditional-jump shape: when the condition holds, validate the target
against `program_len` and redirect `next_pc`; the state is untouched. -/
def cond_jump (vm : vm_state_t) (imm1 npc : Nat) (cond : Bool) :
    vm_status_t × Nat :=
  if cond then
    if imm1 ≥ vm.program_len then (VM_ERR_INVALID_PC, npc) else (VM_OK, imm1)
  else (VM_OK, npc)

/- ================= payload-word views ================= -/

/-- `imm.stack_var_ref.frame_idx`: low half of the payload word. -/
def payload_frame_idx (imm : Nat) : Nat := imm % 65536

/-- `imm.stack_var_ref.var_idx`: high half of the payload word. -/
def payload_var_idx (imm : Nat) : Nat := imm / 65536 % 65536

/- ================= load / store handlers ================= -/

def op_load_g (vm : vm_state_t) (opnd imm1 : Nat) : vm_status_t × vm_state_t :=
  match get_stack_var vm opnd, get_global_var vm imm1 with
  | some _, some src => (VM_OK, set_stack_var vm opnd src)
  | _, _ => (VM_ERR_INVALID_GLOBAL_IDX, vm)

def op_load_l (vm : vm_state_t) (opnd imm1 : Nat) : vm_status_t × vm_state_t :=
  match get_stack_var vm opnd, get_local_var vm imm1 with
  | some _, some src => (VM_OK, set_stack_var vm opnd src)
  | _, _ => (VM_ERR_INVALID_LOCAL_IDX, vm)

def op_load_s (vm : vm_state_t) (opnd imm1 : Nat) : vm_status_t × vm_state_t :=
  match get_stack_var vm opnd with
  | none => (VM_ERR_INVALID_STACK_VAR_IDX, vm)
  | some _ =>
    if payload_frame_idx imm1 ≥ STACK_DEPTH ∨
        payload_var_idx imm1 ≥ STACK_VAR_COUNT then
      (VM_ERR_INVALID_STACK_VAR_IDX, vm)
    else
      (VM_OK, set_stack_var vm opnd
        ((vm.stack_frames (payload_frame_idx imm1)).stack_vars
          (payload_var_idx imm1)))

/-- `LOAD_I_*`: the stored 4-byte pattern is the payload word itself. -/
def op_load_imm (vm : vm_state_t) (opnd imm1 : Nat) (tag : var_value_type_t) :
    vm_status_t × vm_state_t :=
  match get_stack_var vm opnd with
  | none => (VM_ERR_INVALID_STACK_VAR_IDX, vm)
  | some _ => (VM_OK, set_stack_var vm opnd ⟨tag, imm1⟩)

def op_load_ret (vm : vm_state_t) (opnd imm1 : Nat) : vm_status_t × vm_state_t :=
  match get_stack_var vm opnd with
  | none => (VM_ERR_INVALID_STACK_VAR_IDX, vm)
  | some _ =>
    if imm1 ≥ STACK_DEPTH then (VM_ERR_INVALID_STACK_VAR_IDX, vm)
    else (VM_OK, set_stack_var vm opnd ((vm.stack_frames imm1).ret_val))

def op_store_g (vm : vm_state_t) (opnd imm1 : Nat) : vm_status_t × vm_state_t :=
  match get_stack_var vm opnd, get_global_var vm imm1 with
  | some src, some _ => (VM_OK, set_global_var vm imm1 src)
  | _, _ => (VM_ERR_INVALID_GLOBAL_IDX, vm)

def op_store_l (vm : vm_state_t) (opnd imm1 : Nat) : vm_status_t × vm_state_t :=
  match get_stack_var vm opnd, get_local_var vm imm1 with
  | some src, some _ => (VM_OK, set_local_var vm imm1 src)
  | _, _ => (VM_ERR_INVALID_LOCAL_IDX, vm)

def op_store_s (vm : vm_state_t) (opnd imm1 : Nat) : vm_status_t × vm_state_t :=
  match get_stack_var vm opnd with
  | none => (VM_ERR_INVALID_STACK_VAR_IDX, vm)
  | some src =>
    if payload_frame_idx imm1 ≥ STACK_DEPTH ∨
        payload_var_idx imm1 ≥ STACK_VAR_COUNT then
      (VM_ERR_INVALID_STACK_VAR_IDX, vm)
    else
      let fi := payload_frame_idx imm1
      let fr := vm.stack_frames fi
      let sv := Function.update fr.stack_vars (payload_var_idx imm1) src
      let fr' := { fr with stack_vars := sv }
      (VM_OK, { vm with stack_frames := Function.update vm.stack_frames fi fr' })

def op_store_ret (vm : vm_state_t) (opnd imm1 : Nat) : vm_status_t × vm_state_t :=
  match get_stack_var vm opnd with
  | none => (VM_ERR_INVALID_STACK_VAR_IDX, vm)
  | some src =>
    if imm1 ≥ STACK_DEPTH then (VM_ERR_INVALID_STACK_VAR_IDX, vm)
    else
      let fr := vm.stack_frames imm1
      let fr' := { fr with ret_val := src }
      (VM_OK, { vm with stack_frames := Function.update vm.stack_frames imm1 fr' })

/- ================= buffer handlers ================= -/

def op_buf_read (vm : vm_state_t) (opnd imm1 imm2 : Nat) :
    vm_status_t × vm_state_t :=
  match get_stack_var vm opnd with
  | none => (VM_ERR_INVALID_STACK_VAR_IDX, vm)
  | some _ =>
    if ¬ validate_buffer_idx imm1 then (VM_ERR_INVALID_BUFFER_IDX, vm)
    else
      let buf := vm.g_membuf imm1
      if buf.type = MB_VOID then (VM_ERR_TYPE_MISMATCH, vm)
      else if ¬ validate_buffer_pos buf.type imm2 then
        (VM_ERR_INVALID_BUFFER_POS, vm)
      else
        match buf.type with
        | MB_U8 => (VM_OK, set_stack_var vm opnd ⟨V_U32, membuf_u8_get buf imm2⟩)
        | MB_U16 => (VM_OK, set_stack_var vm opnd ⟨V_U32, membuf_u16_get buf imm2⟩)
        | MB_I32 =>
          (VM_OK, set_stack_var vm opnd
            ⟨V_I32, ofInt32 (toSigned32 (membuf_w32_get buf imm2))⟩)
        | MB_U32 => (VM_OK, set_stack_var vm opnd ⟨V_U32, membuf_w32_get buf imm2⟩)
        | MB_FLOAT => (VM_OK, set_stack_var vm opnd ⟨V_FLOAT, membuf_w32_get buf imm2⟩)
        | MB_VOID => (VM_ERR_TYPE_MISMATCH, vm)

def op_buf_write (vm : vm_state_t) (opnd imm1 imm2 : Nat) :
    vm_status_t × vm_state_t :=
  match get_stack_var vm opnd with
  | none => (VM_ERR_INVALID_STACK_VAR_IDX, vm)
  | some src =>
    if ¬ validate_buffer_idx imm1 then (VM_ERR_INVALID_BUFFER_IDX, vm)
    else
      let buf := vm.g_membuf imm1
      if buf.type = MB_VOID then (VM_ERR_TYPE_MISMATCH, vm)
      else if ¬ validate_buffer_pos buf.type imm2 then
        (VM_ERR_INVALID_BUFFER_POS, vm)
      else
        match buf.type with
        | MB_U8 =>
          -- both the u32 and the i32 union reads truncate to the low byte
          if src.type = V_U32 ∨ src.type = V_I32 then
            (VM_OK, set_membuf vm imm1 (membuf_u8_set buf imm2 (src.raw % 256)))
          else (VM_ERR_TYPE_MISMATCH, vm)
        | MB_U16 =>
          if src.type = V_U32 ∨ src.type = V_I32 then
            (VM_OK, set_membuf vm imm1 (membuf_u16_set buf imm2 (src.raw % 65536)))
          else (VM_ERR_TYPE_MISMATCH, vm)
        | MB_I32 =>
          if src.type = V_I32 then
            (VM_OK, set_membuf vm imm1 (membuf_w32_set buf imm2 src.raw))
          else (VM_ERR_TYPE_MISMATCH, vm)
        | MB_U32 =>
          if src.type = V_U32 then
            (VM_OK, set_membuf vm imm1 (membuf_w32_set buf imm2 src.raw))
          else (VM_ERR_TYPE_MISMATCH, vm)
        | MB_FLOAT =>
          if src.type = V_FLOAT then
            (VM_OK, set_membuf vm imm1 (membuf_w32_set buf imm2 src.raw))
          else (VM_ERR_TYPE_MISMATCH, vm)
        | MB_VOID => (VM_ERR_TYPE_MISMATCH, vm)

def op_buf_len (vm : vm_state_t) (opnd imm1 : Nat) : vm_status_t × vm_state_t :=
  match get_stack_var vm opnd with
  | none => (VM_ERR_INVALID_STACK_VAR_IDX, vm)
  | some _ =>
    if ¬ validate_buffer_idx imm1 then (VM_ERR_INVALID_BUFFER_IDX, vm)
    else
      (VM_OK, set_stack_var vm opnd
        ⟨V_U32, get_buffer_capacity (vm.g_membuf imm1).type⟩)

def op_buf_clear (vm : vm_state_t) (imm1 : Nat) : vm_status_t × vm_state_t :=
  if ¬ validate_buffer_idx imm1 then (VM_ERR_INVALID_BUFFER_IDX, vm)
  else
    (VM_OK, set_membuf vm imm1 { vm.g_membuf imm1 with bytes := fun _ => 0 })

/- ================= string handlers ================= -/

/-- String length scan: count of leading non-NUL bytes, capped at 256. -/
def strlen_bytes (b : Nat → Nat) : Nat :=
  ((List.range MEMBUF_U8_COUNT).takeWhile (fun i => b i != 0)).length

/-- One byte store into buffer `bi` of a buffer pool. -/
def buf_set_byte (st : Nat → membuf_t) (bi i v : Nat) : Nat → membuf_t :=
  Function.update st bi (membuf_u8_set (st bi) i v)

/-- `STR_CAT` on the buffer pool: retag dest, measure both sources, copy the
first string, append the second, NUL-terminate.  The copies run
sequentially so in-place concatenation (`dest` aliasing a source) behaves
exactly as the byte-by-byte C loops do. -/
def str_cat_store (st0 : Nat → membuf_t) (d s1 s2 : Nat) : Nat → membuf_t :=
  let st1 := Function.update st0 d { st0 d with type := MB_U8 }
  let len1 := strlen_bytes (st1 s1).bytes
  let len2 := strlen_bytes (st1 s2).bytes
  let n1 := min len1 (MEMBUF_U8_COUNT - 1)
  let st2 := (List.range n1).foldl
    (fun st j => buf_set_byte st d j ((st s1).bytes j)) st1
  let n2 := min len2 (MEMBUF_U8_COUNT - 1 - n1)
  let st3 := (List.range n2).foldl
    (fun st j => buf_set_byte st d (n1 + j) ((st s2).bytes j)) st2
  buf_set_byte st3 d (n1 + n2) 0

def op_str_cat (vm : vm_state_t) (opnd imm1 imm2 : Nat) :
    vm_status_t × vm_state_t :=
  if ¬ validate_buffer_idx opnd ∨ ¬ validate_buffer_idx imm1 ∨
      ¬ validate_buffer_idx imm2 then
    (VM_ERR_INVALID_BUFFER_IDX, vm)
  else if (vm.g_membuf imm1).type ≠ MB_U8 ∨ (vm.g_membuf imm2).type ≠ MB_U8 then
    (VM_ERR_TYPE_MISMATCH, vm)
  else
    (VM_OK, { vm with g_membuf := str_cat_store vm.g_membuf opnd imm1 imm2 })

/-- The `STR_COPY` byte loop: copy `src[i]` to `dest[i]`, stop after copying
the NUL; returns the store and the index at which the loop stopped. -/
def str_copy_loop (st : Nat → membuf_t) (d s i : Nat) :
    Nat → (Nat → membuf_t) × Nat
  | 0 => (st, i)
  | fuel + 1 =>
    let st' := buf_set_byte st d i ((st s).bytes i)
    if (st' s).bytes i = 0 then (st', i)
    else str_copy_loop st' d s (i + 1) fuel

def op_str_copy (vm : vm_state_t) (opnd imm1 : Nat) : vm_status_t × vm_state_t :=
  if ¬ validate_buffer_idx opnd ∨ ¬ validate_buffer_idx imm1 then
    (VM_ERR_INVALID_BUFFER_IDX, vm)
  else if (vm.g_membuf imm1).type ≠ MB_U8 then (VM_ERR_TYPE_MISMATCH, vm)
  else
    let st1 := Function.update vm.g_membuf opnd
      { vm.g_membuf opnd with type := MB_U8 }
    let r := str_copy_loop st1 opnd imm1 0 MEMBUF_U8_COUNT
    let st2 :=
      if r.2 = MEMBUF_U8_COUNT then
        buf_set_byte r.1 opnd (MEMBUF_U8_COUNT - 1) 0
      else r.1
    (VM_OK, { vm with g_membuf := st2 })

def op_str_len (vm : vm_state_t) (opnd imm1 : Nat) : vm_status_t × vm_state_t :=
  match get_stack_var vm opnd with
  | none => (VM_ERR_INVALID_STACK_VAR_IDX, vm)
  | some _ =>
    if ¬ validate_buffer_idx imm1 then (VM_ERR_INVALID_BUFFER_IDX, vm)
    else if (vm.g_membuf imm1).type ≠ MB_U8 then (VM_ERR_TYPE_MISMATCH, vm)
    else
      (VM_OK, set_stack_var vm opnd
        ⟨V_U32, strlen_bytes (vm.g_membuf imm1).bytes⟩)

/-- The `STR_CMP` byte scan: -1/0/1 at the first differing byte or at a
shared NUL; 0 if all 256 bytes agree. -/
def str_cmp_loop (b1 b2 : Nat → Nat) (i : Nat) : Nat → Int
  | 0 => 0
  | fuel + 1 =>
    if b1 i < b2 i then -1
    else if b2 i < b1 i then 1
    else if b1 i = 0 then 0
    else str_cmp_loop b1 b2 (i + 1) fuel

def op_str_cmp (vm : vm_state_t) (imm1 imm2 : Nat) : vm_status_t × vm_state_t :=
  if ¬ validate_buffer_idx imm1 ∨ ¬ validate_buffer_idx imm2 then
    (VM_ERR_INVALID_BUFFER_IDX, vm)
  else if (vm.g_membuf imm1).type ≠ MB_U8 ∨ (vm.g_membuf imm2).type ≠ MB_U8 then
    (VM_ERR_TYPE_MISMATCH, vm)
  else
    let r := str_cmp_loop (vm.g_membuf imm1).bytes (vm.g_membuf imm2).bytes 0
      MEMBUF_U8_COUNT
    (VM_OK, { vm with flags := mkflags (r = 0) (r < 0) (0 < r) })

def op_str_chr (vm : vm_state_t) (opnd imm1 imm2 : Nat) :
    vm_status_t × vm_state_t :=
  match get_stack_var vm opnd with
  | none => (VM_ERR_INVALID_STACK_VAR_IDX, vm)
  | some _ =>
    if ¬ validate_buffer_idx imm1 then (VM_ERR_INVALID_BUFFER_IDX, vm)
    else if (vm.g_membuf imm1).type ≠ MB_U8 then (VM_ERR_TYPE_MISMATCH, vm)
    else if imm2 ≥ MEMBUF_U8_COUNT then (VM_ERR_INVALID_BUFFER_POS, vm)
    else (VM_OK, set_stack_var vm opnd ⟨V_U32, (vm.g_membuf imm1).bytes imm2⟩)

def op_str_set_chr (vm : vm_state_t) (imm1 imm2 imm3 : Nat) :
    vm_status_t × vm_state_t :=
  if ¬ validate_buffer_idx imm1 then (VM_ERR_INVALID_BUFFER_IDX, vm)
  else if (vm.g_membuf imm1).type ≠ MB_U8 then (VM_ERR_TYPE_MISMATCH, vm)
  else if imm2 ≥ MEMBUF_U8_COUNT then (VM_ERR_INVALID_BUFFER_POS, vm)
  else
    (VM_OK, set_membuf vm imm1 (membuf_u8_set (vm.g_membuf imm1) imm2 (imm3 % 256)))

/- ================= text formatting / IO handlers ================= -/

/-- Decimal digits of a natural number, as ASCII bytes. -/
def nat_to_dec (n : Nat) : List Nat := (Nat.toDigits 10 n).map Char.toNat

/-- `print_i32`: optional minus sign then decimal digits (the C helper
special-cases `INT32_MIN`; negating an `Int` needs no special case). -/
def i32_to_dec (i : Int) : List Nat :=
  if i < 0 then 45 :: nat_to_dec (-i).toNat else nat_to_dec i.toNat

/-- Bytes `PRINT_STR` emits: buffer contents up to the first NUL. -/
def str_print_bytes (b : Nat → Nat) : List Nat :=
  ((List.range MEMBUF_U8_COUNT).map b).takeWhile (fun c => c != 0)

/-- Three print-a-stack-var opcodes share this shape: source from
`imm1 & 0xFF`, tag check, then bytes to `stdout`. -/
def op_print_var (vm : vm_state_t) (io : StdStreams) (i1 : Nat)
    (req : var_value_type_t) (fmt : var_value_t → List Nat) :
    vm_status_t × vm_state_t × StdStreams :=
  match get_stack_var vm (i1 % 256) with
  | none => (VM_ERR_INVALID_STACK_VAR_IDX, vm, io)
  | some src =>
    if src.type = req then (VM_OK, vm, { io with out := io.out ++ fmt src })
    else (VM_ERR_TYPE_MISMATCH, vm, io)

def op_print_str (vm : vm_state_t) (io : StdStreams) (imm1 : Nat) :
    vm_status_t × vm_state_t × StdStreams :=
  if ¬ validate_buffer_idx imm1 then (VM_ERR_INVALID_BUFFER_IDX, vm, io)
  else if (vm.g_membuf imm1).type ≠ MB_U8 then (VM_ERR_TYPE_MISMATCH, vm, io)
  else
    (VM_OK, vm,
      { io with out := io.out ++ str_print_bytes (vm.g_membuf imm1).bytes })

/-- The post-`scanf`-failure recovery loop: drop input through the next
line terminator (or to end of input). -/
def drop_line (l : List Nat) : List Nat :=
  (l.dropWhile (fun c => c != 10)).drop 1

/-- `READ_I32`/`READ_U32`/`READ_F32` share this shape: parse via the host,
on success store the parsed value, on failure store zero of the target tag
and flush the input line. -/
def op_read_var (vm : vm_state_t) (io : StdStreams) (opnd : Nat)
    (scan : List Nat → Option Nat × List Nat) (tag : var_value_type_t) :
    vm_status_t × vm_state_t × StdStreams :=
  match get_stack_var vm opnd with
  | none => (VM_ERR_INVALID_STACK_VAR_IDX, vm, io)
  | some _ =>
    match scan io.inp with
    | (some v, rest) =>
      (VM_OK, set_stack_var vm opnd ⟨tag, v⟩, { io with inp := rest })
    | (none, rest) =>
      (VM_OK, set_stack_var vm opnd ⟨tag, 0⟩, { io with inp := drop_line rest })

/-- The `READ_STR` byte loop: consume input bytes into the buffer stopping
at end-of-input, at a line terminator (consumed), or after 255 bytes. -/
def read_str_loop (st : Nat → membuf_t) (bi : Nat) (inp : List Nat) (i : Nat) :
    Nat → (Nat → membuf_t) × List Nat × Nat
  | 0 => (st, inp, i)
  | fuel + 1 =>
    match inp with
    | [] => (st, [], i)
    | c :: rest =>
      if c = 10 then (st, rest, i)
      else read_str_loop (buf_set_byte st bi i c) bi rest (i + 1) fuel

def op_read_str (vm : vm_state_t) (io : StdStreams) (imm1 : Nat) :
    vm_status_t × vm_state_t × StdStreams :=
  if ¬ validate_buffer_idx imm1 then (VM_ERR_INVALID_BUFFER_IDX, vm, io)
  else
    let st1 := Function.update vm.g_membuf imm1
      { vm.g_membuf imm1 with type := MB_U8 }
    let r := read_str_loop st1 imm1 io.inp 0 (MEMBUF_U8_COUNT - 1)
    let st2 := buf_set_byte r.1 imm1 r.2.2 0
    (VM_OK, { vm with g_membuf := st2 }, { io with inp := r.2.1 })

/- ================= control-flow handlers ================= -/

/-- `CALL`: overflow check, target check, save `return_addr = next_pc` into
frame `sp+1`, increment `sp`, reset the new frame's locals to void/0, and
redirect execution to the target. -/
def op_call (vm : vm_state_t) (imm1 npc : Nat) : vm_status_t × vm_state_t × Nat :=
  if vm.sp ≥ STACK_DEPTH - 1 then (VM_ERR_STACK_OVERFLOW, vm, npc)
  else if imm1 ≥ vm.program_len then (VM_ERR_INVALID_PC, vm, npc)
  else
    let fr := vm.stack_frames (vm.sp + 1)
    let fr' := { fr with return_addr := npc, locals := fun _ => void_value }
    let vm' := { vm with
      stack_frames := Function.update vm.stack_frames (vm.sp + 1) fr'
      sp := vm.sp + 1 }
    (VM_OK, vm', imm1)

/-- `RET`: underflow check, restore `pc` from the current frame's saved
return address, decrement `sp`. -/
def op_ret (vm : vm_state_t) (npc : Nat) : vm_status_t × vm_state_t × Nat :=
  if vm.sp = 0 then (VM_ERR_STACK_UNDERFLOW, vm, npc)
  else
    ((VM_OK, { vm with sp := vm.sp - 1 },
      (vm.stack_frames vm.sp).return_addr) : vm_status_t × vm_state_t × Nat)

/- ================= opcode-specific computations ================= -/

def i32_binop (f : Int → Int → Int) (a b : var_value_t) :
    vm_status_t ⊕ var_value_t :=
  Sum.inr ⟨V_I32, ofInt32 (f (toSigned32 a.raw) (toSigned32 b.raw))⟩

def i32_divop (f : Int → Int → Int) (a b : var_value_t) :
    vm_status_t ⊕ var_value_t :=
  if toSigned32 b.raw = 0 then Sum.inl VM_ERR_DIV_BY_ZERO
  else Sum.inr ⟨V_I32, ofInt32 (f (toSigned32 a.raw) (toSigned32 b.raw))⟩

def u32_binop (f : Nat → Nat → Nat) (a b : var_value_t) :
    vm_status_t ⊕ var_value_t :=
  Sum.inr ⟨V_U32, f a.raw b.raw % 2 ^ 32⟩

def u32_divop (f : Nat → Nat → Nat) (a b : var_value_t) :
    vm_status_t ⊕ var_value_t :=
  if b.raw = 0 then Sum.inl VM_ERR_DIV_BY_ZERO
  else Sum.inr ⟨V_U32, f a.raw b.raw % 2 ^ 32⟩

def u32_shiftop (f : Nat → Nat → Nat) (a b : var_value_t) :
    vm_status_t ⊕ var_value_t :=
  if b.raw ≥ 32 then Sum.inl VM_ERR_BOUNDS
  else Sum.inr ⟨V_U32, f a.raw b.raw % 2 ^ 32⟩

def f32_binop (f : Nat → Nat → Nat) (a b : var_value_t) :
    vm_status_t ⊕ var_value_t :=
  Sum.inr ⟨V_FLOAT, f a.raw b.raw⟩

/-- `DIV_F32`'s divisor test `src2->val.f32 == 0.0f` is true exactly for the
two IEEE-754 zero patterns. -/
def f32_is_zero (bits : Nat) : Bool := bits = 0 ∨ bits = 0x80000000

def f32_divop (f : Nat → Nat → Nat) (a b : var_value_t) :
    vm_status_t ⊕ var_value_t :=
  if f32_is_zero b.raw then Sum.inl VM_ERR_DIV_BY_ZERO
  else Sum.inr ⟨V_FLOAT, f a.raw b.raw⟩

/-- Bit pattern of the float literal `1e-6f` used by `CMP_F32`. -/
def F32_EPS_BITS : Nat := 0x358637BD

def cmp_i32_flags (a b : var_value_t) : Nat :=
  mkflags (toSigned32 a.raw = toSigned32 b.raw)
    (toSigned32 a.raw < toSigned32 b.raw) (toSigned32 b.raw < toSigned32 a.raw)

def cmp_u32_flags (a b : var_value_t) : Nat :=
  mkflags (a.raw = b.raw) (a.raw < b.raw) (b.raw < a.raw)

def cmp_f32_flags (h : HostOps) (a b : var_value_t) : Nat :=
  mkflags (h.f_lt (h.f_abs (h.f_sub a.raw b.raw)) F32_EPS_BITS)
    (h.f_lt a.raw b.raw) (h.f_gt a.raw b.raw)

/- ================= the dispatch switch ================= -/

/-- Flag-bit tests driving the conditional jumps. -/
def flag_set (vm : vm_state_t) (bit : Nat) : Bool := vm.flags / bit % 2 = 1

/-- The body of `vm_step`'s `switch (hdr.opcode)`: one arm per opcode,
returning the status, the mutated state, the mutated streams, and the
(possibly redirected) `next_pc`. -/
def run_op (h : HostOps) (vm : vm_state_t) (io : StdStreams) (o : opcode_t)
    (opnd imm1 imm2 imm3 npc : Nat) :
    vm_status_t × vm_state_t × StdStreams × Nat :=
  match o with
  | OP_NOP => (VM_OK, vm, io, npc)
  | OP_HALT => (VM_ERR_HALT, vm, io, npc)
  | OP_JMP =>
    let r := cond_jump vm imm1 npc true
    (r.1, vm, io, r.2)
  | OP_JZ =>
    let r := cond_jump vm imm1 npc (flag_set vm FLAG_ZERO)
    (r.1, vm, io, r.2)
  | OP_JNZ =>
    let r := cond_jump vm imm1 npc (! flag_set vm FLAG_ZERO)
    (r.1, vm, io, r.2)
  | OP_JLT =>
    let r := cond_jump vm imm1 npc (flag_set vm FLAG_LESS)
    (r.1, vm, io, r.2)
  | OP_JGT =>
    let r := cond_jump vm imm1 npc (flag_set vm FLAG_GREATER)
    (r.1, vm, io, r.2)
  | OP_JLE =>
    let r := cond_jump vm imm1 npc
      (flag_set vm FLAG_LESS || flag_set vm FLAG_ZERO)
    (r.1, vm, io, r.2)
  | OP_JGE =>
    let r := cond_jump vm imm1 npc
      (flag_set vm FLAG_GREATER || flag_set vm FLAG_ZERO)
    (r.1, vm, io, r.2)
  | OP_CALL =>
    let r := op_call vm imm1 npc
    (r.1, r.2.1, io, r.2.2)
  | OP_RET =>
    let r := op_ret vm npc
    (r.1, r.2.1, io, r.2.2)
  | OP_LOAD_G => let r := op_load_g vm opnd imm1; (r.1, r.2, io, npc)
  | OP_LOAD_L => let r := op_load_l vm opnd imm1; (r.1, r.2, io, npc)
  | OP_LOAD_S => let r := op_load_s vm opnd imm1; (r.1, r.2, io, npc)
  | OP_LOAD_I_I32 => let r := op_load_imm vm opnd imm1 V_I32; (r.1, r.2, io, npc)
  | OP_LOAD_I_U32 => let r := op_load_imm vm opnd imm1 V_U32; (r.1, r.2, io, npc)
  | OP_LOAD_I_F32 => let r := op_load_imm vm opnd imm1 V_FLOAT; (r.1, r.2, io, npc)
  | OP_LOAD_RET => let r := op_load_ret vm opnd imm1; (r.1, r.2, io, npc)
  | OP_STORE_G => let r := op_store_g vm opnd imm1; (r.1, r.2, io, npc)
  | OP_STORE_L => let r := op_store_l vm opnd imm1; (r.1, r.2, io, npc)
  | OP_STORE_S => let r := op_store_s vm opnd imm1; (r.1, r.2, io, npc)
  | OP_STORE_RET => let r := op_store_ret vm opnd imm1; (r.1, r.2, io, npc)
  | OP_ADD_I32 =>
    let r := arith3 vm opnd imm1 imm2 V_I32 (i32_binop (· + ·))
    (r.1, r.2, io, npc)
  | OP_SUB_I32 =>
    let r := arith3 vm opnd imm1 imm2 V_I32 (i32_binop (· - ·))
    (r.1, r.2, io, npc)
  | OP_MUL_I32 =>
    let r := arith3 vm opnd imm1 imm2 V_I32 (i32_binop (· * ·))
    (r.1, r.2, io, npc)
  | OP_DIV_I32 =>
    let r := arith3 vm opnd imm1 imm2 V_I32 (i32_divop Int.tdiv)
    (r.1, r.2, io, npc)
  | OP_MOD_I32 =>
    let r := arith3 vm opnd imm1 imm2 V_I32 (i32_divop Int.tmod)
    (r.1, r.2, io, npc)
  | OP_NEG_I32 =>
    let r := arith2 vm opnd imm1 V_I32
      (fun s => ⟨V_I32, ofInt32 (- toSigned32 s.raw)⟩)
    (r.1, r.2, io, npc)
  | OP_ADD_U32 =>
    let r := arith3 vm opnd imm1 imm2 V_U32 (u32_binop (· + ·))
    (r.1, r.2, io, npc)
  | OP_SUB_U32 =>
    let r := arith3 vm opnd imm1 imm2 V_U32
      (u32_binop (fun a b => a + (2 ^ 32 - b % 2 ^ 32)))
    (r.1, r.2, io, npc)
  | OP_MUL_U32 =>
    let r := arith3 vm opnd imm1 imm2 V_U32 (u32_binop (· * ·))
    (r.1, r.2, io, npc)
  | OP_DIV_U32 =>
    let r := arith3 vm opnd imm1 imm2 V_U32 (u32_divop (· / ·))
    (r.1, r.2, io, npc)
  | OP_MOD_U32 =>
    let r := arith3 vm opnd imm1 imm2 V_U32 (u32_divop (· % ·))
    (r.1, r.2, io, npc)
  | OP_ADD_F32 =>
    let r := arith3 vm opnd imm1 imm2 V_FLOAT (f32_binop h.f_add)
    (r.1, r.2, io, npc)
  | OP_SUB_F32 =>
    let r := arith3 vm opnd imm1 imm2 V_FLOAT (f32_binop h.f_sub)
    (r.1, r.2, io, npc)
  | OP_MUL_F32 =>
    let r := arith3 vm opnd imm1 imm2 V_FLOAT (f32_binop h.f_mul)
    (r.1, r.2, io, npc)
  | OP_DIV_F32 =>
    let r := arith3 vm opnd imm1 imm2 V_FLOAT (f32_divop h.f_div)
    (r.1, r.2, io, npc)
  | OP_NEG_F32 =>
    let r := arith2 vm opnd imm1 V_FLOAT (fun s => ⟨V_FLOAT, h.f_neg s.raw⟩)
    (r.1, r.2, io, npc)
  | OP_ABS_F32 =>
    let r := arith2 vm opnd imm1 V_FLOAT (fun s => ⟨V_FLOAT, h.f_abs s.raw⟩)
    (r.1, r.2, io, npc)
  | OP_SQRT_F32 =>
    let r := arith2 vm opnd imm1 V_FLOAT (fun s => ⟨V_FLOAT, h.f_sqrt s.raw⟩)
    (r.1, r.2, io, npc)
  | OP_AND_U32 =>
    let r := arith3 vm opnd imm1 imm2 V_U32 (u32_binop (· &&& ·))
    (r.1, r.2, io, npc)
  | OP_OR_U32 =>
    let r := arith3 vm opnd imm1 imm2 V_U32 (u32_binop (· ||| ·))
    (r.1, r.2, io, npc)
  | OP_XOR_U32 =>
    let r := arith3 vm opnd imm1 imm2 V_U32 (u32_binop (· ^^^ ·))
    (r.1, r.2, io, npc)
  | OP_NOT_U32 =>
    let r := arith2 vm opnd imm1 V_U32
      (fun s => ⟨V_U32, s.raw ^^^ (2 ^ 32 - 1)⟩)
    (r.1, r.2, io, npc)
  | OP_SHL_U32 =>
    let r := arith3 vm opnd imm1 imm2 V_U32 (u32_shiftop (· <<< ·))
    (r.1, r.2, io, npc)
  | OP_SHR_U32 =>
    let r := arith3 vm opnd imm1 imm2 V_U32 (u32_shiftop (· >>> ·))
    (r.1, r.2, io, npc)
  | OP_CMP_I32 =>
    let r := cmp2 vm imm1 imm2 V_I32 cmp_i32_flags
    (r.1, r.2, io, npc)
  | OP_CMP_U32 =>
    let r := cmp2 vm imm1 imm2 V_U32 cmp_u32_flags
    (r.1, r.2, io, npc)
  | OP_CMP_F32 =>
    let r := cmp2 vm imm1 imm2 V_FLOAT (cmp_f32_flags h)
    (r.1, r.2, io, npc)
  | OP_I32_TO_U32 =>
    let r := arith2 vm opnd imm1 V_I32
      (fun s => ⟨V_U32, ofInt32 (toSigned32 s.raw)⟩)
    (r.1, r.2, io, npc)
  | OP_U32_TO_I32 =>
    let r := arith2 vm opnd imm1 V_U32
      (fun s => ⟨V_I32, ofInt32 (toSigned32 s.raw)⟩)
    (r.1, r.2, io, npc)
  | OP_I32_TO_F32 =>
    let r := arith2 vm opnd imm1 V_I32 (fun s => ⟨V_FLOAT, h.i32_to_f32 s.raw⟩)
    (r.1, r.2, io, npc)
  | OP_U32_TO_F32 =>
    let r := arith2 vm opnd imm1 V_U32 (fun s => ⟨V_FLOAT, h.u32_to_f32 s.raw⟩)
    (r.1, r.2, io, npc)
  | OP_F32_TO_I32 =>
    let r := arith2 vm opnd imm1 V_FLOAT (fun s => ⟨V_I32, h.f32_to_i32 s.raw⟩)
    (r.1, r.2, io, npc)
  | OP_F32_TO_U32 =>
    let r := arith2 vm opnd imm1 V_FLOAT (fun s => ⟨V_U32, h.f32_to_u32 s.raw⟩)
    (r.1, r.2, io, npc)
  | OP_BUF_READ => let r := op_buf_read vm opnd imm1 imm2; (r.1, r.2, io, npc)
  | OP_BUF_WRITE => let r := op_buf_write vm opnd imm1 imm2; (r.1, r.2, io, npc)
  | OP_BUF_LEN => let r := op_buf_len vm opnd imm1; (r.1, r.2, io, npc)
  | OP_BUF_CLEAR => let r := op_buf_clear vm imm1; (r.1, r.2, io, npc)
  | OP_STR_CAT => let r := op_str_cat vm opnd imm1 imm2; (r.1, r.2, io, npc)
  | OP_STR_COPY => let r := op_str_copy vm opnd imm1; (r.1, r.2, io, npc)
  | OP_STR_LEN => let r := op_str_len vm opnd imm1; (r.1, r.2, io, npc)
  | OP_STR_CMP => let r := op_str_cmp vm imm1 imm2; (r.1, r.2, io, npc)
  | OP_STR_CHR => let r := op_str_chr vm opnd imm1 imm2; (r.1, r.2, io, npc)
  | OP_STR_SET_CHR =>
    let r := op_str_set_chr vm imm1 imm2 imm3
    (r.1, r.2, io, npc)
  | OP_PRINT_I32 =>
    let r := op_print_var vm io imm1 V_I32 (fun s => i32_to_dec (toSigned32 s.raw))
    (r.1, r.2.1, r.2.2, npc)
  | OP_PRINT_U32 =>
    let r := op_print_var vm io imm1 V_U32 (fun s => nat_to_dec s.raw)
    (r.1, r.2.1, r.2.2, npc)
  | OP_PRINT_F32 =>
    let r := op_print_var vm io imm1 V_FLOAT (fun s => h.format_f32 s.raw)
    (r.1, r.2.1, r.2.2, npc)
  | OP_PRINT_STR =>
    let r := op_print_str vm io imm1
    (r.1, r.2.1, r.2.2, npc)
  | OP_PRINTLN => (VM_OK, vm, { io with out := io.out ++ [10] }, npc)
  | OP_READ_I32 =>
    let r := op_read_var vm io opnd
      (fun l => ((h.scan_i32 l).1.map ofInt32, (h.scan_i32 l).2)) V_I32
    (r.1, r.2.1, r.2.2, npc)
  | OP_READ_U32 =>
    let r := op_read_var vm io opnd
      (fun l => ((h.scan_u32 l).1.map (· % 2 ^ 32), (h.scan_u32 l).2)) V_U32
    (r.1, r.2.1, r.2.2, npc)
  | OP_READ_F32 =>
    let r := op_read_var vm io opnd h.scan_f32 V_FLOAT
    (r.1, r.2.1, r.2.2, npc)
  | OP_READ_STR =>
    let r := op_read_str vm io imm1
    (r.1, r.2.1, r.2.2, npc)
  | OP_UNKNOWN => (VM_ERR_INVALID_OPCODE, vm, io, npc)

/- ================= fetch / decode / step ================= -/

/-- The 4-byte word `memcpy` copies out of program memory at offset `a`. -/
def word32 (prog : Nat → Nat) (a : Nat) : Nat :=
  prog a + 256 * prog (a + 1) + 65536 * prog (a + 2) + 16777216 * prog (a + 3)

/-- `vm_step`: fetch the header, validate `payload_len` and the full
instruction size, copy out the payload words, dispatch, then commit
`next_pc` only on success and latch the status into `last_error`. -/
def vm_step (h : HostOps) (vm : vm_state_t) (io : StdStreams) :
    vm_status_t × vm_state_t × StdStreams :=
  if vm.pc ≥ vm.program_len ∨ vm.program_len - vm.pc < 4 then
    (VM_ERR_INVALID_PC, { vm with last_error := VM_ERR_INVALID_PC }, io)
  else
    let payload_len := vm.program (vm.pc + 2) % 16
    let instr_size := 4 + payload_len * 4
    if vm.pc + instr_size > vm.program_len ∨ payload_len > 3 then
      (VM_ERR_INVALID_INSTRUCTION,
        { vm with last_error := VM_ERR_INVALID_INSTRUCTION }, io)
    else
      let opnd := vm.program (vm.pc + 1)
      let imm1 := if payload_len ≥ 1 then word32 vm.program (vm.pc + 4) else 0
      let imm2 := if payload_len ≥ 2 then word32 vm.program (vm.pc + 8) else 0
      let imm3 := if payload_len ≥ 3 then word32 vm.program (vm.pc + 12) else 0
      let r := run_op h vm io (decode_opcode (vm.program vm.pc)) opnd imm1 imm2
        imm3 (vm.pc + instr_size)
      let st := r.1
      let vm1 := if st = VM_OK then { r.2.1 with pc := r.2.2.2 } else r.2.1
      (st, { vm1 with last_error := st }, r.2.2.1)

/-- `vm_run`, made total with an explicit step budget: iterate `vm_step`
while the status is `VM_OK`; fold `VM_ERR_HALT` to `VM_OK` at the boundary;
`none` means the budget ran out before the loop finished. -/
def vm_run (h : HostOps) (fuel : Nat) (vm : vm_state_t) (io : StdStreams) :
    Option (vm_status_t × vm_state_t × StdStreams) :=
  match fuel with
  | 0 => none
  | fuel + 1 =>
    match vm_step h vm io with
    | (VM_OK, vm', io') => vm_run h fuel vm' io'
    | (VM_ERR_HALT, vm', io') => some (VM_OK, vm', io')
    | (st, vm', io') => some (st, vm', io')

/- ================= failure leaves the state unchanged ================= -/

theorem arith3_fail (vm : vm_state_t) (opnd i1 i2 : Nat)
    (req : var_value_type_t)
    (f : var_value_t → var_value_t → vm_status_t ⊕ var_value_t) :
    (arith3 vm opnd i1 i2 req f).1 ≠ VM_OK → (arith3 vm opnd i1 i2 req f).2 = vm := by
  unfold arith3
  repeat' split
  all_goals intro h
  all_goals first | rfl | exact absurd rfl h

theorem arith2_fail (vm : vm_state_t) (opnd i1 : Nat)
    (req : var_value_type_t) (f : var_value_t → var_value_t) :
    (arith2 vm opnd i1 req f).1 ≠ VM_OK → (arith2 vm opnd i1 req f).2 = vm := by
  unfold arith2
  repeat' split
  all_goals intro h
  all_goals first | rfl | exact absurd rfl h

theorem cmp2_fail (vm : vm_state_t) (i1 i2 : Nat)
    (req : var_value_type_t) (fl : var_value_t → var_value_t → Nat) :
    (cmp2 vm i1 i2 req fl).1 ≠ VM_OK → (cmp2 vm i1 i2 req fl).2 = vm := by
  unfold cmp2
  repeat' split
  all_goals intro h
  all_goals first | rfl | exact absurd rfl h

theorem op_call_fail (vm : vm_state_t) (imm1 npc : Nat) :
    (op_call vm imm1 npc).1 ≠ VM_OK → (op_call vm imm1 npc).2.1 = vm := by
  unfold op_call
  repeat' split
  all_goals intro h
  all_goals first | rfl | exact absurd rfl h

theorem op_ret_fail (vm : vm_state_t) (npc : Nat) :
    (op_ret vm npc).1 ≠ VM_OK → (op_ret vm npc).2.1 = vm := by
  unfold op_ret
  repeat' split
  all_goals intro h
  all_goals first | rfl | exact absurd rfl h

theorem op_load_g_fail (vm : vm_state_t) (opnd imm1 : Nat) :
    (op_load_g vm opnd imm1).1 ≠ VM_OK → (op_load_g vm opnd imm1).2 = vm := by
  unfold op_load_g
  repeat' split
  all_goals intro h
  all_goals first | rfl | exact absurd rfl h

theorem op_load_l_fail (vm : vm_state_t) (opnd imm1 : Nat) :
    (op_load_l vm opnd imm1).1 ≠ VM_OK → (op_load_l vm opnd imm1).2 = vm := by
  unfold op_load_l
  repeat' split
  all_goals intro h
  all_goals first | rfl | exact absurd rfl h

theorem op_load_s_fail (vm : vm_state_t) (opnd imm1 : Nat) :
    (op_load_s vm opnd imm1).1 ≠ VM_OK → (op_load_s vm opnd imm1).2 = vm := by
  unfold op_load_s
  repeat' split
  all_goals intro h
  all_goals first | rfl | exact absurd rfl h

theorem op_load_imm_fail (vm : vm_state_t) (opnd imm1 : Nat)
    (tag : var_value_type_t) :
    (op_load_imm vm opnd imm1 tag).1 ≠ VM_OK →
      (op_load_imm vm opnd imm1 tag).2 = vm := by
  unfold op_load_imm
  repeat' split
  all_goals intro h
  all_goals first | rfl | exact absurd rfl h

theorem op_load_ret_fail (vm : vm_state_t) (opnd imm1 : Nat) :
    (op_load_ret vm opnd imm1).1 ≠ VM_OK → (op_load_ret vm opnd imm1).2 = vm := by
  unfold op_load_ret
  repeat' split
  all_goals intro h
  all_goals first | rfl | exact absurd rfl h

theorem op_store_g_fail (vm : vm_state_t) (opnd imm1 : Nat) :
    (op_store_g vm opnd imm1).1 ≠ VM_OK → (op_store_g vm opnd imm1).2 = vm := by
  unfold op_store_g
  repeat' split
  all_goals intro h
  all_goals first | rfl | exact absurd rfl h

theorem op_store_l_fail (vm : vm_state_t) (opnd imm1 : Nat) :
    (op_store_l vm opnd imm1).1 ≠ VM_OK → (op_store_l vm opnd imm1).2 = vm := by
  unfold op_store_l
  repeat' split
  all_goals intro h
  all_goals first | rfl | exact absurd rfl h

theorem op_store_s_fail (vm : vm_state_t) (opnd imm1 : Nat) :
    (op_store_s vm opnd imm1).1 ≠ VM_OK → (op_store_s vm opnd imm1).2 = vm := by
  unfold op_store_s
  repeat' split
  all_goals intro h
  all_goals first | rfl | exact absurd rfl h

theorem op_store_ret_fail (vm : vm_state_t) (opnd imm1 : Nat) :
    (op_store_ret vm opnd imm1).1 ≠ VM_OK → (op_store_ret vm opnd imm1).2 = vm := by
  unfold op_store_ret
  repeat' split
  all_goals intro h
  all_goals first | rfl | exact absurd rfl h

theorem op_buf_read_fail (vm : vm_state_t) (opnd imm1 imm2 : Nat) :
    (op_buf_read vm opnd imm1 imm2).1 ≠ VM_OK →
      (op_buf_read vm opnd imm1 imm2).2 = vm := by
  unfold op_buf_read
  dsimp only
  repeat' split
  all_goals intro h
  all_goals first | rfl | exact absurd rfl h

theorem op_buf_write_fail (vm : vm_state_t) (opnd imm1 imm2 : Nat) :
    (op_buf_write vm opnd imm1 imm2).1 ≠ VM_OK →
      (op_buf_write vm opnd imm1 imm2).2 = vm := by
  unfold op_buf_write
  dsimp only
  repeat' split
  all_goals intro h
  all_goals first | rfl | exact absurd rfl h

theorem op_buf_len_fail (vm : vm_state_t) (opnd imm1 : Nat) :
    (op_buf_len vm opnd imm1).1 ≠ VM_OK → (op_buf_len vm opnd imm1).2 = vm := by
  unfold op_buf_len
  repeat' split
  all_goals intro h
  all_goals first | rfl | exact absurd rfl h

theorem op_buf_clear_fail (vm : vm_state_t) (imm1 : Nat) :
    (op_buf_clear vm imm1).1 ≠ VM_OK → (op_buf_clear vm imm1).2 = vm := by
  unfold op_buf_clear
  repeat' split
  all_goals intro h
  all_goals first | rfl | exact absurd rfl h

theorem op_str_cat_fail (vm : vm_state_t) (opnd imm1 imm2 : Nat) :
    (op_str_cat vm opnd imm1 imm2).1 ≠ VM_OK →
      (op_str_cat vm opnd imm1 imm2).2 = vm := by
  unfold op_str_cat
  repeat' split
  all_goals intro h
  all_goals first | rfl | exact absurd rfl h

theorem op_str_copy_fail (vm : vm_state_t) (opnd imm1 : Nat) :
    (op_str_copy vm opnd imm1).1 ≠ VM_OK → (op_str_copy vm opnd imm1).2 = vm := by
  unfold op_str_copy
  repeat' split
  all_goals intro h
  all_goals first | rfl | exact absurd rfl h

theorem op_str_len_fail (vm : vm_state_t) (opnd imm1 : Nat) :
    (op_str_len vm opnd imm1).1 ≠ VM_OK → (op_str_len vm opnd imm1).2 = vm := by
  unfold op_str_len
  repeat' split
  all_goals intro h
  all_goals first | rfl | exact absurd rfl h

theorem op_str_cmp_fail (vm : vm_state_t) (imm1 imm2 : Nat) :
    (op_str_cmp vm imm1 imm2).1 ≠ VM_OK → (op_str_cmp vm imm1 imm2).2 = vm := by
  unfold op_str_cmp
  repeat' split
  all_goals intro h
  all_goals first | rfl | exact absurd rfl h

theorem op_str_chr_fail (vm : vm_state_t) (opnd imm1 imm2 : Nat) :
    (op_str_chr vm opnd imm1 imm2).1 ≠ VM_OK →
      (op_str_chr vm opnd imm1 imm2).2 = vm := by
  unfold op_str_chr
  repeat' split
  all_goals intro h
  all_goals first | rfl | exact absurd rfl h

theorem op_str_set_chr_fail (vm : vm_state_t) (imm1 imm2 imm3 : Nat) :
    (op_str_set_chr vm imm1 imm2 imm3).1 ≠ VM_OK →
      (op_str_set_chr vm imm1 imm2 imm3).2 = vm := by
  unfold op_str_set_chr
  repeat' split
  all_goals intro h
  all_goals first | rfl | exact absurd rfl h

theorem op_print_var_fail (vm : vm_state_t) (io : StdStreams) (i1 : Nat)
    (req : var_value_type_t) (fmt : var_value_t → List Nat) :
    (op_print_var vm io i1 req fmt).1 ≠ VM_OK →
      (op_print_var vm io i1 req fmt).2.1 = vm := by
  unfold op_print_var
  repeat' split
  all_goals intro _
  all_goals rfl

theorem op_print_str_fail (vm : vm_state_t) (io : StdStreams) (imm1 : Nat) :
    (op_print_str vm io imm1).1 ≠ VM_OK → (op_print_str vm io imm1).2.1 = vm := by
  unfold op_print_str
  repeat' split
  all_goals intro _
  all_goals rfl

theorem op_read_var_fail (vm : vm_state_t) (io : StdStreams) (opnd : Nat)
    (scan : List Nat → Option Nat × List Nat) (tag : var_value_type_t) :
    (op_read_var vm io opnd scan tag).1 ≠ VM_OK →
      (op_read_var vm io opnd scan tag).2.1 = vm := by
  unfold op_read_var
  repeat' split
  all_goals intro h
  all_goals first | rfl | exact absurd rfl h

theorem op_read_str_fail (vm : vm_state_t) (io : StdStreams) (imm1 : Nat) :
    (op_read_str vm io imm1).1 ≠ VM_OK → (op_read_str vm io imm1).2.1 = vm := by
  unfold op_read_str
  repeat' split
  all_goals intro h
  all_goals first | rfl | exact absurd rfl h

/-- Every handler of the dispatch switch leaves the machine state untouched
unless it reports `VM_OK`; in particular every error arm and `HALT` return
the incoming state. -/
theorem run_op_fail (h : HostOps) (vm : vm_state_t) (io : StdStreams)
    (o : opcode_t) (opnd imm1 imm2 imm3 npc : Nat) :
    (run_op h vm io o opnd imm1 imm2 imm3 npc).1 ≠ VM_OK →
      (run_op h vm io o opnd imm1 imm2 imm3 npc).2.1 = vm := by
  cases o
  case OP_NOP => intro _; rfl
  case OP_HALT => intro _; rfl
  case OP_JMP => intro _; rfl
  case OP_JZ => intro _; rfl
  case OP_JNZ => intro _; rfl
  case OP_JLT => intro _; rfl
  case OP_JGT => intro _; rfl
  case OP_JLE => intro _; rfl
  case OP_JGE => intro _; rfl
  case OP_CALL => intro hne; exact op_call_fail vm imm1 npc hne
  case OP_RET => intro hne; exact op_ret_fail vm npc hne
  case OP_LOAD_G => intro hne; exact op_load_g_fail vm opnd imm1 hne
  case OP_LOAD_L => intro hne; exact op_load_l_fail vm opnd imm1 hne
  case OP_LOAD_S => intro hne; exact op_load_s_fail vm opnd imm1 hne
  case OP_LOAD_I_I32 => intro hne; exact op_load_imm_fail vm opnd imm1 V_I32 hne
  case OP_LOAD_I_U32 => intro hne; exact op_load_imm_fail vm opnd imm1 V_U32 hne
  case OP_LOAD_I_F32 => intro hne; exact op_load_imm_fail vm opnd imm1 V_FLOAT hne
  case OP_LOAD_RET => intro hne; exact op_load_ret_fail vm opnd imm1 hne
  case OP_STORE_G => intro hne; exact op_store_g_fail vm opnd imm1 hne
  case OP_STORE_L => intro hne; exact op_store_l_fail vm opnd imm1 hne
  case OP_STORE_S => intro hne; exact op_store_s_fail vm opnd imm1 hne
  case OP_STORE_RET => intro hne; exact op_store_ret_fail vm opnd imm1 hne
  case OP_ADD_I32 => intro hne; exact arith3_fail vm opnd imm1 imm2 _ _ hne
  case OP_SUB_I32 => intro hne; exact arith3_fail vm opnd imm1 imm2 _ _ hne
  case OP_MUL_I32 => intro hne; exact arith3_fail vm opnd imm1 imm2 _ _ hne
  case OP_DIV_I32 => intro hne; exact arith3_fail vm opnd imm1 imm2 _ _ hne
  case OP_MOD_I32 => intro hne; exact arith3_fail vm opnd imm1 imm2 _ _ hne
  case OP_NEG_I32 => intro hne; exact arith2_fail vm opnd imm1 _ _ hne
  case OP_ADD_U32 => intro hne; exact arith3_fail vm opnd imm1 imm2 _ _ hne
  case OP_SUB_U32 => intro hne; exact arith3_fail vm opnd imm1 imm2 _ _ hne
  case OP_MUL_U32 => intro hne; exact arith3_fail vm opnd imm1 imm2 _ _ hne
  case OP_DIV_U32 => intro hne; exact arith3_fail vm opnd imm1 imm2 _ _ hne
  case OP_MOD_U32 => intro hne; exact arith3_fail vm opnd imm1 imm2 _ _ hne
  case OP_ADD_F32 => intro hne; exact arith3_fail vm opnd imm1 imm2 _ _ hne
  case OP_SUB_F32 => intro hne; exact arith3_fail vm opnd imm1 imm2 _ _ hne
  case OP_MUL_F32 => intro hne; exact arith3_fail vm opnd imm1 imm2 _ _ hne
  case OP_DIV_F32 => intro hne; exact arith3_fail vm opnd imm1 imm2 _ _ hne
  case OP_NEG_F32 => intro hne; exact arith2_fail vm opnd imm1 _ _ hne
  case OP_ABS_F32 => intro hne; exact arith2_fail vm opnd imm1 _ _ hne
  case OP_SQRT_F32 => intro hne; exact arith2_fail vm opnd imm1 _ _ hne
  case OP_AND_U32 => intro hne; exact arith3_fail vm opnd imm1 imm2 _ _ hne
  case OP_OR_U32 => intro hne; exact arith3_fail vm opnd imm1 imm2 _ _ hne
  case OP_XOR_U32 => intro hne; exact arith3_fail vm opnd imm1 imm2 _ _ hne
  case OP_NOT_U32 => intro hne; exact arith2_fail vm opnd imm1 _ _ hne
  case OP_SHL_U32 => intro hne; exact arith3_fail vm opnd imm1 imm2 _ _ hne
  case OP_SHR_U32 => intro hne; exact arith3_fail vm opnd imm1 imm2 _ _ hne
  case OP_CMP_I32 => intro hne; exact cmp2_fail vm imm1 imm2 _ _ hne
  case OP_CMP_U32 => intro hne; exact cmp2_fail vm imm1 imm2 _ _ hne
  case OP_CMP_F32 => intro hne; exact cmp2_fail vm imm1 imm2 _ _ hne
  case OP_I32_TO_U32 => intro hne; exact arith2_fail vm opnd imm1 _ _ hne
  case OP_U32_TO_I32 => intro hne; exact arith2_fail vm opnd imm1 _ _ hne
  case OP_I32_TO_F32 => intro hne; exact arith2_fail vm opnd imm1 _ _ hne
  case OP_U32_TO_F32 => intro hne; exact arith2_fail vm opnd imm1 _ _ hne
  case OP_F32_TO_I32 => intro hne; exact arith2_fail vm opnd imm1 _ _ hne
  case OP_F32_TO_U32 => intro hne; exact arith2_fail vm opnd imm1 _ _ hne
  case OP_BUF_READ => intro hne; exact op_buf_read_fail vm opnd imm1 imm2 hne
  case OP_BUF_WRITE => intro hne; exact op_buf_write_fail vm opnd imm1 imm2 hne
  case OP_BUF_LEN => intro hne; exact op_buf_len_fail vm opnd imm1 hne
  case OP_BUF_CLEAR => intro hne; exact op_buf_clear_fail vm imm1 hne
  case OP_STR_CAT => intro hne; exact op_str_cat_fail vm opnd imm1 imm2 hne
  case OP_STR_COPY => intro hne; exact op_str_copy_fail vm opnd imm1 hne
  case OP_STR_LEN => intro hne; exact op_str_len_fail vm opnd imm1 hne
  case OP_STR_CMP => intro hne; exact op_str_cmp_fail vm imm1 imm2 hne
  case OP_STR_CHR => intro hne; exact op_str_chr_fail vm opnd imm1 imm2 hne
  case OP_STR_SET_CHR => intro hne; exact op_str_set_chr_fail vm imm1 imm2 imm3 hne
  case OP_PRINT_I32 => intro hne; exact op_print_var_fail vm io imm1 _ _ hne
  case OP_PRINT_U32 => intro hne; exact op_print_var_fail vm io imm1 _ _ hne
  case OP_PRINT_F32 => intro hne; exact op_print_var_fail vm io imm1 _ _ hne
  case OP_PRINT_STR => intro hne; exact op_print_str_fail vm io imm1 hne
  case OP_PRINTLN => intro _; rfl
  case OP_READ_I32 => intro hne; exact op_read_var_fail vm io opnd _ V_I32 hne
  case OP_READ_U32 => intro hne; exact op_read_var_fail vm io opnd _ V_U32 hne
  case OP_READ_F32 => intro hne; exact op_read_var_fail vm io opnd _ V_FLOAT hne
  case OP_READ_STR => intro hne; exact op_read_str_fail vm io imm1 hne
  case OP_UNKNOWN => intro _; rfl

/-- Claim C1: for every VM state and every instruction, if `vm_step` returns
a status other than `VM_OK` and other than `VM_ERR_HALT`, then the post
state equals the pre state with only `last_error` replaced — program memory,
PC, SP, all frames, globals, buffers and flags are unchanged, and in
particular the PC does not advance on failure. -/
theorem c1_step_failure_preserves_state
    (h : HostOps) (vm : vm_state_t) (io : StdStreams)
    (st : vm_status_t) (vm' : vm_state_t) (io' : StdStreams)
    (hEq : vm_step h vm io = (st, vm', io'))
    (h1 : st ≠ VM_OK) (h2 : st ≠ VM_ERR_HALT) :
    vm' = { vm with last_error := st } := by
  unfold vm_step at hEq
  split at hEq
  · injection hEq with e1 e2
    injection e2 with e2 e3
    subst e1
    rw [← e2]
  · dsimp only at hEq
    split at hEq
    · injection hEq with e1 e2
      injection e2 with e2 e3
      subst e1
      rw [← e2]
    · injection hEq with e1 e2
      injection e2 with e2 e3
      subst e1
      rw [← e2, if_neg h1,
        run_op_fail h vm io _ _ _ _ _ _ h1]

/-- Witness for C1: stepping the freshly initialised machine (empty program)
fails with `VM_ERR_INVALID_PC` and changes nothing but `last_error`. -/
theorem c1_step_failure_preserves_state_witness :
    (vm_step hostZero vm_init ⟨[], []⟩).2.1 =
      { vm_init with last_error := VM_ERR_INVALID_PC } :=
  c1_step_failure_preserves_state hostZero vm_init ⟨[], []⟩
    VM_ERR_INVALID_PC (vm_step hostZero vm_init ⟨[], []⟩).2.1
    (vm_step hostZero vm_init ⟨[], []⟩).2.2 rfl
    (by decide) (by decide)

/- ================= skeleton preservation ================= -/

/-- The machine-skeleton fields an opcode handler other than CALL/RET never
touches: program length, stack pointer, and every frame's saved return
address. -/
def same_skel (vm vm' : vm_state_t) : Prop :=
  vm'.program_len = vm.program_len ∧ vm'.sp = vm.sp ∧
    ∀ i, (vm'.stack_frames i).return_addr = (vm.stack_frames i).return_addr

theorem same_skel_refl (vm : vm_state_t) : same_skel vm vm :=
  ⟨rfl, rfl, fun _ => rfl⟩

theorem frames_update_keep_ra (vm : vm_state_t) (k : Nat) (fr' : stack_frame_t)
    (hra : fr'.return_addr = (vm.stack_frames k).return_addr) (i : Nat) :
    ((Function.update vm.stack_frames k fr') i).return_addr =
      (vm.stack_frames i).return_addr := by
  by_cases hi : i = k
  · subst hi; simp [Function.update_apply, hra]
  · simp [Function.update_apply, hi]

theorem set_stack_var_skel (vm : vm_state_t) (idx : Nat) (v : var_value_t) :
    same_skel vm (set_stack_var vm idx v) := by
  refine ⟨rfl, rfl, fun i => ?_⟩
  by_cases hi : i = vm.sp <;> simp [set_stack_var, Function.update_apply, hi]

theorem set_local_var_skel (vm : vm_state_t) (idx : Nat) (v : var_value_t) :
    same_skel vm (set_local_var vm idx v) := by
  refine ⟨rfl, rfl, fun i => ?_⟩
  by_cases hi : i = vm.sp <;> simp [set_local_var, Function.update_apply, hi]

theorem set_global_var_skel (vm : vm_state_t) (idx : Nat) (v : var_value_t) :
    same_skel vm (set_global_var vm idx v) :=
  ⟨rfl, rfl, fun _ => rfl⟩

theorem set_membuf_skel (vm : vm_state_t) (idx : Nat) (b : membuf_t) :
    same_skel vm (set_membuf vm idx b) :=
  ⟨rfl, rfl, fun _ => rfl⟩

theorem membuf_fun_skel (vm : vm_state_t) (f : Nat → membuf_t) :
    same_skel vm { vm with g_membuf := f } :=
  ⟨rfl, rfl, fun _ => rfl⟩

theorem flags_skel (vm : vm_state_t) (f : Nat) :
    same_skel vm { vm with flags := f } :=
  ⟨rfl, rfl, fun _ => rfl⟩

theorem arith3_skel (vm : vm_state_t) (opnd i1 i2 : Nat)
    (req : var_value_type_t)
    (f : var_value_t → var_value_t → vm_status_t ⊕ var_value_t) :
    same_skel vm (arith3 vm opnd i1 i2 req f).2 := by
  unfold arith3
  repeat' split
  all_goals first
    | exact same_skel_refl vm
    | exact set_stack_var_skel vm _ _

theorem arith2_skel (vm : vm_state_t) (opnd i1 : Nat)
    (req : var_value_type_t) (f : var_value_t → var_value_t) :
    same_skel vm (arith2 vm opnd i1 req f).2 := by
  unfold arith2
  repeat' split
  all_goals first
    | exact same_skel_refl vm
    | exact set_stack_var_skel vm _ _

theorem cmp2_skel (vm : vm_state_t) (i1 i2 : Nat)
    (req : var_value_type_t) (fl : var_value_t → var_value_t → Nat) :
    same_skel vm (cmp2 vm i1 i2 req fl).2 := by
  unfold cmp2
  repeat' split
  all_goals exact same_skel_refl vm

theorem op_load_g_skel (vm : vm_state_t) (opnd imm1 : Nat) :
    same_skel vm (op_load_g vm opnd imm1).2 := by
  unfold op_load_g
  repeat' split
  all_goals first
    | exact same_skel_refl vm
    | exact set_stack_var_skel vm _ _

theorem op_load_l_skel (vm : vm_state_t) (opnd imm1 : Nat) :
    same_skel vm (op_load_l vm opnd imm1).2 := by
  unfold op_load_l
  repeat' split
  all_goals first
    | exact same_skel_refl vm
    | exact set_stack_var_skel vm _ _

theorem op_load_s_skel (vm : vm_state_t) (opnd imm1 : Nat) :
    same_skel vm (op_load_s vm opnd imm1).2 := by
  unfold op_load_s
  repeat' split
  all_goals first
    | exact same_skel_refl vm
    | exact set_stack_var_skel vm _ _

theorem op_load_imm_skel (vm : vm_state_t) (opnd imm1 : Nat)
    (tag : var_value_type_t) :
    same_skel vm (op_load_imm vm opnd imm1 tag).2 := by
  unfold op_load_imm
  repeat' split
  all_goals first
    | exact same_skel_refl vm
    | exact set_stack_var_skel vm _ _

theorem op_load_ret_skel (vm : vm_state_t) (opnd imm1 : Nat) :
    same_skel vm (op_load_ret vm opnd imm1).2 := by
  unfold op_load_ret
  repeat' split
  all_goals first
    | exact same_skel_refl vm
    | exact set_stack_var_skel vm _ _

theorem op_store_g_skel (vm : vm_state_t) (opnd imm1 : Nat) :
    same_skel vm (op_store_g vm opnd imm1).2 := by
  unfold op_store_g
  repeat' split
  all_goals exact same_skel_refl vm

theorem op_store_l_skel (vm : vm_state_t) (opnd imm1 : Nat) :
    same_skel vm (op_store_l vm opnd imm1).2 := by
  unfold op_store_l
  repeat' split
  all_goals first
    | exact same_skel_refl vm
    | exact set_local_var_skel vm _ _

theorem op_store_s_skel (vm : vm_state_t) (opnd imm1 : Nat) :
    same_skel vm (op_store_s vm opnd imm1).2 := by
  unfold op_store_s
  dsimp only
  repeat' split
  all_goals first
    | exact same_skel_refl vm
    | (refine ⟨rfl, rfl, fun i => frames_update_keep_ra vm _ _ ?_ i⟩; rfl)

theorem op_store_ret_skel (vm : vm_state_t) (opnd imm1 : Nat) :
    same_skel vm (op_store_ret vm opnd imm1).2 := by
  unfold op_store_ret
  dsimp only
  repeat' split
  all_goals first
    | exact same_skel_refl vm
    | (refine ⟨rfl, rfl, fun i => frames_update_keep_ra vm _ _ ?_ i⟩; rfl)

theorem op_buf_read_skel (vm : vm_state_t) (opnd imm1 imm2 : Nat) :
    same_skel vm (op_buf_read vm opnd imm1 imm2).2 := by
  unfold op_buf_read
  dsimp only
  repeat' split
  all_goals first
    | exact same_skel_refl vm
    | exact set_stack_var_skel vm _ _

theorem op_buf_write_skel (vm : vm_state_t) (opnd imm1 imm2 : Nat) :
    same_skel vm (op_buf_write vm opnd imm1 imm2).2 := by
  unfold op_buf_write
  dsimp only
  repeat' split
  all_goals exact same_skel_refl vm

theorem op_buf_len_skel (vm : vm_state_t) (opnd imm1 : Nat) :
    same_skel vm (op_buf_len vm opnd imm1).2 := by
  unfold op_buf_len
  repeat' split
  all_goals first
    | exact same_skel_refl vm
    | exact set_stack_var_skel vm _ _

theorem op_buf_clear_skel (vm : vm_state_t) (imm1 : Nat) :
    same_skel vm (op_buf_clear vm imm1).2 := by
  unfold op_buf_clear
  repeat' split
  all_goals exact same_skel_refl vm

theorem op_str_cat_skel (vm : vm_state_t) (opnd imm1 imm2 : Nat) :
    same_skel vm (op_str_cat vm opnd imm1 imm2).2 := by
  unfold op_str_cat
  repeat' split
  all_goals exact same_skel_refl vm

theorem op_str_copy_skel (vm : vm_state_t) (opnd imm1 : Nat) :
    same_skel vm (op_str_copy vm opnd imm1).2 := by
  unfold op_str_copy
  repeat' split
  all_goals exact same_skel_refl vm

theorem op_str_len_skel (vm : vm_state_t) (opnd imm1 : Nat) :
    same_skel vm (op_str_len vm opnd imm1).2 := by
  unfold op_str_len
  repeat' split
  all_goals first
    | exact same_skel_refl vm
    | exact set_stack_var_skel vm _ _

theorem op_str_cmp_skel (vm : vm_state_t) (imm1 imm2 : Nat) :
    same_skel vm (op_str_cmp vm imm1 imm2).2 := by
  unfold op_str_cmp
  repeat' split
  all_goals exact same_skel_refl vm

theorem op_str_chr_skel (vm : vm_state_t) (opnd imm1 imm2 : Nat) :
    same_skel vm (op_str_chr vm opnd imm1 imm2).2 := by
  unfold op_str_chr
  repeat' split
  all_goals first
    | exact same_skel_refl vm
    | exact set_stack_var_skel vm _ _

theorem op_str_set_chr_skel (vm : vm_state_t) (imm1 imm2 imm3 : Nat) :
    same_skel vm (op_str_set_chr vm imm1 imm2 imm3).2 := by
  unfold op_str_set_chr
  repeat' split
  all_goals exact same_skel_refl vm

theorem op_print_var_skel (vm : vm_state_t) (io : StdStreams) (i1 : Nat)
    (req : var_value_type_t) (fmt : var_value_t → List Nat) :
    same_skel vm (op_print_var vm io i1 req fmt).2.1 := by
  unfold op_print_var
  repeat' split
  all_goals exact same_skel_refl vm

theorem op_print_str_skel (vm : vm_state_t) (io : StdStreams) (imm1 : Nat) :
    same_skel vm (op_print_str vm io imm1).2.1 := by
  unfold op_print_str
  repeat' split
  all_goals exact same_skel_refl vm

theorem op_read_var_skel (vm : vm_state_t) (io : StdStreams) (opnd : Nat)
    (scan : List Nat → Option Nat × List Nat) (tag : var_value_type_t) :
    same_skel vm (op_read_var vm io opnd scan tag).2.1 := by
  unfold op_read_var
  repeat' split
  all_goals first
    | exact same_skel_refl vm
    | exact set_stack_var_skel vm _ _

theorem op_read_str_skel (vm : vm_state_t) (io : StdStreams) (imm1 : Nat) :
    same_skel vm (op_read_str vm io imm1).2.1 := by
  unfold op_read_str
  repeat' split
  all_goals exact same_skel_refl vm

/- ================= master step-invariant lemma ================= -/

theorem cond_jump_npc (vm : vm_state_t) (imm1 npc : Nat) (c : Bool) :
    (cond_jump vm imm1 npc c).1 = VM_OK →
      (cond_jump vm imm1 npc c).2 = npc ∨
        (cond_jump vm imm1 npc c).2 < vm.program_len := by
  unfold cond_jump
  split
  · split
    · intro hok; simp at hok
    · intro _
      right
      omega
  · intro _
    left
    rfl

/-- The shape of the per-opcode invariant facts: program length unchanged,
`sp` stays below the frame ceiling, every saved return address is either the
old one or the incoming `next_pc`, and on success the outgoing `next_pc` is
the incoming one, a checked jump target, or a saved return address. -/
def step_facts (vm : vm_state_t) (npc : Nat)
    (r : vm_status_t × vm_state_t × StdStreams × Nat) : Prop :=
  r.2.1.program_len = vm.program_len ∧
    (vm.sp < STACK_DEPTH → r.2.1.sp < STACK_DEPTH) ∧
    (∀ i, (r.2.1.stack_frames i).return_addr = (vm.stack_frames i).return_addr ∨
      (r.2.1.stack_frames i).return_addr = npc) ∧
    (r.1 = VM_OK → r.2.2.2 = npc ∨ r.2.2.2 < vm.program_len ∨
      ∃ i, r.2.2.2 = (vm.stack_frames i).return_addr)

theorem step_facts_of_skel (vm : vm_state_t) (npc : Nat)
    (st : vm_status_t) (vm' : vm_state_t) (io' : StdStreams)
    (hs : same_skel vm vm') : step_facts vm npc (st, vm', io', npc) := by
  obtain ⟨hA, hB, hC⟩ := hs
  exact ⟨hA, fun hsp => hB ▸ hsp, fun i => Or.inl (hC i), fun _ => Or.inl rfl⟩

theorem op_call_facts (vm : vm_state_t) (io : StdStreams) (imm1 npc : Nat) :
    step_facts vm npc
      ((op_call vm imm1 npc).1, (op_call vm imm1 npc).2.1, io,
        (op_call vm imm1 npc).2.2) := by
  unfold op_call
  split
  · exact ⟨rfl, id, fun i => Or.inl rfl, fun _ => Or.inl rfl⟩
  · split
    · exact ⟨rfl, id, fun i => Or.inl rfl, fun _ => Or.inl rfl⟩
    · refine ⟨rfl, fun _ => ?_, fun i => ?_, fun _ => ?_⟩
      · show vm.sp + 1 < STACK_DEPTH
        unfold STACK_DEPTH at *
        omega
      · by_cases hi : i = vm.sp + 1
        · subst hi
          right
          simp [Function.update_apply]
        · left
          simp [Function.update_apply, hi]
      · right
        left
        show imm1 < vm.program_len
        omega

theorem op_ret_facts (vm : vm_state_t) (io : StdStreams) (npc : Nat) :
    step_facts vm npc
      ((op_ret vm npc).1, (op_ret vm npc).2.1, io, (op_ret vm npc).2.2) := by
  unfold op_ret
  split
  · exact ⟨rfl, id, fun i => Or.inl rfl, fun _ => Or.inl rfl⟩
  · refine ⟨rfl, fun hsp => ?_, fun i => Or.inl rfl, fun _ => ?_⟩
    · show vm.sp - 1 < STACK_DEPTH
      omega
    · exact Or.inr (Or.inr ⟨vm.sp, rfl⟩)

/-- Every dispatch arm satisfies the step-invariant facts. -/
theorem run_op_facts (h : HostOps) (vm : vm_state_t) (io : StdStreams)
    (o : opcode_t) (opnd imm1 imm2 imm3 npc : Nat) :
    step_facts vm npc (run_op h vm io o opnd imm1 imm2 imm3 npc) := by
  cases o
  case OP_NOP => exact step_facts_of_skel vm npc _ _ _ (same_skel_refl vm)
  case OP_HALT => exact step_facts_of_skel vm npc _ _ _ (same_skel_refl vm)
  case OP_JMP =>
    refine ⟨rfl, id, fun i => Or.inl rfl, fun hok => ?_⟩
    rcases cond_jump_npc vm imm1 npc true hok with e | e
    · exact Or.inl e
    · exact Or.inr (Or.inl e)
  case OP_JZ =>
    refine ⟨rfl, id, fun i => Or.inl rfl, fun hok => ?_⟩
    rcases cond_jump_npc vm imm1 npc (flag_set vm FLAG_ZERO) hok with e | e
    · exact Or.inl e
    · exact Or.inr (Or.inl e)
  case OP_JNZ =>
    refine ⟨rfl, id, fun i => Or.inl rfl, fun hok => ?_⟩
    rcases cond_jump_npc vm imm1 npc (! flag_set vm FLAG_ZERO) hok with e | e
    · exact Or.inl e
    · exact Or.inr (Or.inl e)
  case OP_JLT =>
    refine ⟨rfl, id, fun i => Or.inl rfl, fun hok => ?_⟩
    rcases cond_jump_npc vm imm1 npc (flag_set vm FLAG_LESS) hok with e | e
    · exact Or.inl e
    · exact Or.inr (Or.inl e)
  case OP_JGT =>
    refine ⟨rfl, id, fun i => Or.inl rfl, fun hok => ?_⟩
    rcases cond_jump_npc vm imm1 npc (flag_set vm FLAG_GREATER) hok with e | e
    · exact Or.inl e
    · exact Or.inr (Or.inl e)
  case OP_JLE =>
    refine ⟨rfl, id, fun i => Or.inl rfl, fun hok => ?_⟩
    rcases cond_jump_npc vm imm1 npc (flag_set vm FLAG_LESS || flag_set vm FLAG_ZERO) hok with e | e
    · exact Or.inl e
    · exact Or.inr (Or.inl e)
  case OP_JGE =>
    refine ⟨rfl, id, fun i => Or.inl rfl, fun hok => ?_⟩
    rcases cond_jump_npc vm imm1 npc (flag_set vm FLAG_GREATER || flag_set vm FLAG_ZERO) hok with e | e
    · exact Or.inl e
    · exact Or.inr (Or.inl e)
  case OP_CALL => exact op_call_facts vm io imm1 npc
  case OP_RET => exact op_ret_facts vm io npc
  case OP_LOAD_G => exact step_facts_of_skel vm npc _ _ _ (op_load_g_skel vm opnd imm1)
  case OP_LOAD_L => exact step_facts_of_skel vm npc _ _ _ (op_load_l_skel vm opnd imm1)
  case OP_LOAD_S => exact step_facts_of_skel vm npc _ _ _ (op_load_s_skel vm opnd imm1)
  case OP_LOAD_I_I32 => exact step_facts_of_skel vm npc _ _ _ (op_load_imm_skel vm opnd imm1 V_I32)
  case OP_LOAD_I_U32 => exact step_facts_of_skel vm npc _ _ _ (op_load_imm_skel vm opnd imm1 V_U32)
  case OP_LOAD_I_F32 => exact step_facts_of_skel vm npc _ _ _ (op_load_imm_skel vm opnd imm1 V_FLOAT)
  case OP_LOAD_RET => exact step_facts_of_skel vm npc _ _ _ (op_load_ret_skel vm opnd imm1)
  case OP_STORE_G => exact step_facts_of_skel vm npc _ _ _ (op_store_g_skel vm opnd imm1)
  case OP_STORE_L => exact step_facts_of_skel vm npc _ _ _ (op_store_l_skel vm opnd imm1)
  case OP_STORE_S => exact step_facts_of_skel vm npc _ _ _ (op_store_s_skel vm opnd imm1)
  case OP_STORE_RET => exact step_facts_of_skel vm npc _ _ _ (op_store_ret_skel vm opnd imm1)
  case OP_ADD_I32 => exact step_facts_of_skel vm npc _ _ _ (arith3_skel vm opnd imm1 imm2 _ _)
  case OP_SUB_I32 => exact step_facts_of_skel vm npc _ _ _ (arith3_skel vm opnd imm1 imm2 _ _)
  case OP_MUL_I32 => exact step_facts_of_skel vm npc _ _ _ (arith3_skel vm opnd imm1 imm2 _ _)
  case OP_DIV_I32 => exact step_facts_of_skel vm npc _ _ _ (arith3_skel vm opnd imm1 imm2 _ _)
  case OP_MOD_I32 => exact step_facts_of_skel vm npc _ _ _ (arith3_skel vm opnd imm1 imm2 _ _)
  case OP_NEG_I32 => exact step_facts_of_skel vm npc _ _ _ (arith2_skel vm opnd imm1 _ _)
  case OP_ADD_U32 => exact step_facts_of_skel vm npc _ _ _ (arith3_skel vm opnd imm1 imm2 _ _)
  case OP_SUB_U32 => exact step_facts_of_skel vm npc _ _ _ (arith3_skel vm opnd imm1 imm2 _ _)
  case OP_MUL_U32 => exact step_facts_of_skel vm npc _ _ _ (arith3_skel vm opnd imm1 imm2 _ _)
  case OP_DIV_U32 => exact step_facts_of_skel vm npc _ _ _ (arith3_skel vm opnd imm1 imm2 _ _)
  case OP_MOD_U32 => exact step_facts_of_skel vm npc _ _ _ (arith3_skel vm opnd imm1 imm2 _ _)
  case OP_ADD_F32 => exact step_facts_of_skel vm npc _ _ _ (arith3_skel vm opnd imm1 imm2 _ _)
  case OP_SUB_F32 => exact step_facts_of_skel vm npc _ _ _ (arith3_skel vm opnd imm1 imm2 _ _)
  case OP_MUL_F32 => exact step_facts_of_skel vm npc _ _ _ (arith3_skel vm opnd imm1 imm2 _ _)
  case OP_DIV_F32 => exact step_facts_of_skel vm npc _ _ _ (arith3_skel vm opnd imm1 imm2 _ _)
  case OP_NEG_F32 => exact step_facts_of_skel vm npc _ _ _ (arith2_skel vm opnd imm1 _ _)
  case OP_ABS_F32 => exact step_facts_of_skel vm npc _ _ _ (arith2_skel vm opnd imm1 _ _)
  case OP_SQRT_F32 => exact step_facts_of_skel vm npc _ _ _ (arith2_skel vm opnd imm1 _ _)
  case OP_AND_U32 => exact step_facts_of_skel vm npc _ _ _ (arith3_skel vm opnd imm1 imm2 _ _)
  case OP_OR_U32 => exact step_facts_of_skel vm npc _ _ _ (arith3_skel vm opnd imm1 imm2 _ _)
  case OP_XOR_U32 => exact step_facts_of_skel vm npc _ _ _ (arith3_skel vm opnd imm1 imm2 _ _)
  case OP_NOT_U32 => exact step_facts_of_skel vm npc _ _ _ (arith2_skel vm opnd imm1 _ _)
  case OP_SHL_U32 => exact step_facts_of_skel vm npc _ _ _ (arith3_skel vm opnd imm1 imm2 _ _)
  case OP_SHR_U32 => exact step_facts_of_skel vm npc _ _ _ (arith3_skel vm opnd imm1 imm2 _ _)
  case OP_CMP_I32 => exact step_facts_of_skel vm npc _ _ _ (cmp2_skel vm imm1 imm2 _ _)
  case OP_CMP_U32 => exact step_facts_of_skel vm npc _ _ _ (cmp2_skel vm imm1 imm2 _ _)
  case OP_CMP_F32 => exact step_facts_of_skel vm npc _ _ _ (cmp2_skel vm imm1 imm2 _ _)
  case OP_I32_TO_U32 => exact step_facts_of_skel vm npc _ _ _ (arith2_skel vm opnd imm1 _ _)
  case OP_U32_TO_I32 => exact step_facts_of_skel vm npc _ _ _ (arith2_skel vm opnd imm1 _ _)
  case OP_I32_TO_F32 => exact step_facts_of_skel vm npc _ _ _ (arith2_skel vm opnd imm1 _ _)
  case OP_U32_TO_F32 => exact step_facts_of_skel vm npc _ _ _ (arith2_skel vm opnd imm1 _ _)
  case OP_F32_TO_I32 => exact step_facts_of_skel vm npc _ _ _ (arith2_skel vm opnd imm1 _ _)
  case OP_F32_TO_U32 => exact step_facts_of_skel vm npc _ _ _ (arith2_skel vm opnd imm1 _ _)
  case OP_BUF_READ => exact step_facts_of_skel vm npc _ _ _ (op_buf_read_skel vm opnd imm1 imm2)
  case OP_BUF_WRITE => exact step_facts_of_skel vm npc _ _ _ (op_buf_write_skel vm opnd imm1 imm2)
  case OP_BUF_LEN => exact step_facts_of_skel vm npc _ _ _ (op_buf_len_skel vm opnd imm1)
  case OP_BUF_CLEAR => exact step_facts_of_skel vm npc _ _ _ (op_buf_clear_skel vm imm1)
  case OP_STR_CAT => exact step_facts_of_skel vm npc _ _ _ (op_str_cat_skel vm opnd imm1 imm2)
  case OP_STR_COPY => exact step_facts_of_skel vm npc _ _ _ (op_str_copy_skel vm opnd imm1)
  case OP_STR_LEN => exact step_facts_of_skel vm npc _ _ _ (op_str_len_skel vm opnd imm1)
  case OP_STR_CMP => exact step_facts_of_skel vm npc _ _ _ (op_str_cmp_skel vm imm1 imm2)
  case OP_STR_CHR => exact step_facts_of_skel vm npc _ _ _ (op_str_chr_skel vm opnd imm1 imm2)
  case OP_STR_SET_CHR => exact step_facts_of_skel vm npc _ _ _ (op_str_set_chr_skel vm imm1 imm2 imm3)
  case OP_PRINT_I32 => exact step_facts_of_skel vm npc _ _ _ (op_print_var_skel vm io imm1 _ _)
  case OP_PRINT_U32 => exact step_facts_of_skel vm npc _ _ _ (op_print_var_skel vm io imm1 _ _)
  case OP_PRINT_F32 => exact step_facts_of_skel vm npc _ _ _ (op_print_var_skel vm io imm1 _ _)
  case OP_PRINT_STR => exact step_facts_of_skel vm npc _ _ _ (op_print_str_skel vm io imm1)
  case OP_PRINTLN => exact step_facts_of_skel vm npc _ _ _ (same_skel_refl vm)
  case OP_READ_I32 => exact step_facts_of_skel vm npc _ _ _ (op_read_var_skel vm io opnd _ V_I32)
  case OP_READ_U32 => exact step_facts_of_skel vm npc _ _ _ (op_read_var_skel vm io opnd _ V_U32)
  case OP_READ_F32 => exact step_facts_of_skel vm npc _ _ _ (op_read_var_skel vm io opnd _ V_FLOAT)
  case OP_READ_STR => exact step_facts_of_skel vm npc _ _ _ (op_read_str_skel vm io imm1)
  case OP_UNKNOWN => exact step_facts_of_skel vm npc _ _ _ (same_skel_refl vm)

/- ================= reachability invariant ================= -/

/-- The global structural invariant of claim C2: `sp` below the frame
ceiling, the PC at or before the end of the loaded program, and every
saved return address inside the program. -/
def vm_inv (vm : vm_state_t) : Prop :=
  vm.sp < STACK_DEPTH ∧ vm.pc ≤ vm.program_len ∧
    ∀ i, (vm.stack_frames i).return_addr ≤ vm.program_len

theorem commit_inv (vm : vm_state_t) (npc : Nat)
    (r : vm_status_t × vm_state_t × StdStreams × Nat)
    (hfacts : step_facts vm npc r)
    (hfail : r.1 ≠ VM_OK → r.2.1 = vm)
    (hnpc : npc ≤ vm.program_len)
    (hinv : vm_inv vm) :
    vm_inv { (if r.1 = VM_OK then { r.2.1 with pc := r.2.2.2 } else r.2.1) with
      last_error := r.1 } := by
  obtain ⟨hA, hB, hC, hD⟩ := hfacts
  obtain ⟨hsp, hpc, hra⟩ := hinv
  split
  · rename_i hok
    refine ⟨hB hsp, ?_, fun i => ?_⟩
    · show r.2.2.2 ≤ r.2.1.program_len
      rw [hA]
      rcases hD hok with e | e | ⟨i, e⟩
      · omega
      · omega
      · rw [e]; exact hra i
    · show (r.2.1.stack_frames i).return_addr ≤ r.2.1.program_len
      rw [hA]
      rcases hC i with e | e
      · rw [e]; exact hra i
      · rw [e]; exact hnpc
  · rename_i hne
    rw [hfail hne]
    exact ⟨hsp, hpc, hra⟩

/-- One `vm_step` preserves the structural invariant. -/
theorem vm_step_inv (h : HostOps) (vm : vm_state_t) (io : StdStreams)
    (hinv : vm_inv vm) : vm_inv (vm_step h vm io).2.1 := by
  unfold vm_step
  split
  · exact hinv
  · dsimp only
    split
    · exact hinv
    · rename_i hc2
      exact commit_inv vm (vm.pc + (4 + vm.program (vm.pc + 2) % 16 * 4)) _
        (run_op_facts h vm io _ _ _ _ _ _)
        (run_op_fail h vm io _ _ _ _ _ _)
        (by omega) hinv

theorem commit_sp (vm : vm_state_t) (npc : Nat)
    (r : vm_status_t × vm_state_t × StdStreams × Nat)
    (hfacts : step_facts vm npc r)
    (hsp : vm.sp < STACK_DEPTH) :
    ({ (if r.1 = VM_OK then { r.2.1 with pc := r.2.2.2 } else r.2.1) with
      last_error := r.1 }).sp < STACK_DEPTH := by
  obtain ⟨_, hB, _, _⟩ := hfacts
  split
  · exact hB hsp
  · exact hB hsp

/-- One `vm_step` keeps `sp` below the frame ceiling (no other assumption
needed). -/
theorem vm_step_sp (h : HostOps) (vm : vm_state_t) (io : StdStreams)
    (hsp : vm.sp < STACK_DEPTH) : (vm_step h vm io).2.1.sp < STACK_DEPTH := by
  unfold vm_step
  split
  · exact hsp
  · dsimp only
    split
    · exact hsp
    · exact commit_sp vm (vm.pc + (4 + vm.program (vm.pc + 2) % 16 * 4)) _
        (run_op_facts h vm io _ _ _ _ _ _) hsp

/-- States reachable from `vm_init` by any interleaving of `vm_load_program`
and `vm_step` calls (any host, any input). -/
inductive vm_reach : vm_state_t → Prop
  | init : vm_reach vm_init
  | load (vm : vm_state_t) (p : List Nat) :
      vm_reach vm → vm_reach (vm_load_program vm p).2
  | step (h : HostOps) (io : StdStreams) (vm : vm_state_t) :
      vm_reach vm → vm_reach (vm_step h vm io).2.1

/-- States reachable from a given state by `vm_step` calls only. -/
inductive vm_steps_from : vm_state_t → vm_state_t → Prop
  | refl (vm : vm_state_t) : vm_steps_from vm vm
  | step (h : HostOps) (io : StdStreams) (a b : vm_state_t) :
      vm_steps_from a b → vm_steps_from a (vm_step h b io).2.1

theorem vm_load_sp (vm : vm_state_t) (p : List Nat) :
    (vm_load_program vm p).2.sp = vm.sp := by
  unfold vm_load_program
  split <;> rfl

theorem vm_reach_sp (vm : vm_state_t) (hr : vm_reach vm) :
    vm.sp < STACK_DEPTH := by
  induction hr with
  | init => show (0 : Nat) < 32; omega
  | load vm p _ ih => rw [vm_load_sp]; exact ih
  | step h io vm _ ih => exact vm_step_sp h vm io ih

theorem vm_inv_load_init (p : List Nat) : vm_inv (vm_load_program vm_init p).2 := by
  unfold vm_load_program
  split
  · exact ⟨by show (0 : Nat) < 32; omega, Nat.le_refl 0, fun _ => Nat.le_refl 0⟩
  · exact ⟨by show (0 : Nat) < 32; omega, Nat.zero_le _, fun _ => Nat.zero_le _⟩

theorem vm_steps_from_inv (a b : vm_state_t) (ha : vm_inv a)
    (hs : vm_steps_from a b) : vm_inv b := by
  induction hs with
  | refl vm => exact ha
  | step h io a b _ ih => exact vm_step_inv h b io (ih ha)

/- ================= claim C2 ================= -/

/-- The CALL-then-reload trace refuting claim C2 as stated: load an 8-byte
program whose only instruction is `CALL 0`, step once (pushing return
address 8), load a 4-byte program whose only instruction is `RET`, and step
once more (popping the stale return address). -/
def c2_prog_call : List Nat := [0x09, 0, 1, 0, 0, 0, 0, 0]

def c2_prog_ret : List Nat := [0x0A, 0, 0, 0]

def c2_bad_vm : vm_state_t :=
  (vm_step hostZero
    (vm_load_program
      (vm_step hostZero (vm_load_program vm_init c2_prog_call).2 ⟨[], []⟩).2.1
      c2_prog_ret).2
    ⟨[], []⟩).2.1

/-- Counterexample to claim C2: a state reachable from `vm_init` through
`vm_load_program` and `vm_step` calls whose PC (8) exceeds its program
length (4) — a second, shorter load leaves a stale return address that RET
then installs as the PC. -/
theorem c2_counterexample :
    vm_reach c2_bad_vm ∧ c2_bad_vm.program_len < c2_bad_vm.pc := by
  constructor
  · exact vm_reach.step hostZero ⟨[], []⟩ _
      (vm_reach.load _ c2_prog_ret
        (vm_reach.step hostZero ⟨[], []⟩ _
          (vm_reach.load _ c2_prog_call vm_reach.init)))
  · show (4 : Nat) < 8
    omega

/-- Claim C2 (amended): `sp < 32` holds in every state reachable from
`vm_init` by any sequence of `vm_load_program` and `vm_step` calls; and for
runs with a single program load — `vm_init`, one `vm_load_program`, then any
number of `vm_step` calls — `pc ≤ program_len` also holds at every
instruction boundary.  (As stated the claim is false: reloading a shorter
program strands stale frame return addresses past the new end, and `RET`
installs one as the PC — see the counterexample.) -/
theorem c2_bounds_invariant :
    (∀ vm, vm_reach vm → vm.sp < STACK_DEPTH) ∧
    (∀ (p : List Nat) (vm' : vm_state_t),
      vm_steps_from (vm_load_program vm_init p).2 vm' →
        vm'.sp < STACK_DEPTH ∧ vm'.pc ≤ vm'.program_len) :=
  ⟨fun vm hr => vm_reach_sp vm hr,
   fun p vm' hs =>
     let hi := vm_steps_from_inv _ _ (vm_inv_load_init p) hs
     ⟨hi.1, hi.2.1⟩⟩

/-- Witness for the amended C2 at concrete states: the freshly initialised
machine and a freshly loaded one-instruction program. -/
theorem c2_bounds_invariant_witness :
    vm_init.sp < STACK_DEPTH ∧
      ((vm_load_program vm_init [0x01, 0, 0, 0]).2.sp < STACK_DEPTH ∧
        (vm_load_program vm_init [0x01, 0, 0, 0]).2.pc ≤
          (vm_load_program vm_init [0x01, 0, 0, 0]).2.program_len) :=
  ⟨c2_bounds_invariant.1 vm_init vm_reach.init,
   c2_bounds_invariant.2 [0x01, 0, 0, 0] _
     (vm_steps_from.refl (vm_load_program vm_init [0x01, 0, 0, 0]).2)⟩

/- ================= claim C3 ================= -/

/-- Claim C3: for every `BUF_READ` instruction (destination slot valid):
a buffer index ≥ 256 yields `INVALID_BUFFER_IDX`; a `Void` buffer yields
`TYPE_MISMATCH`; a position at or past the capacity of the buffer's element
type yields `INVALID_BUFFER_POS` while position `capacity - 1` succeeds; and
on success the element is written to the destination stack variable with tag
`U32` for U8/U16/U32 buffers, `I32` for I32 buffers, and `FLOAT` for float
buffers. -/
theorem c3_buf_read_contract (vm : vm_state_t) (opnd imm1 imm2 : Nat)
    (hop : opnd < STACK_VAR_COUNT) :
    (imm1 ≥ G_MEMBUF_COUNT →
      (op_buf_read vm opnd imm1 imm2).1 = VM_ERR_INVALID_BUFFER_IDX) ∧
    (imm1 < G_MEMBUF_COUNT → (vm.g_membuf imm1).type = MB_VOID →
      (op_buf_read vm opnd imm1 imm2).1 = VM_ERR_TYPE_MISMATCH) ∧
    (imm1 < G_MEMBUF_COUNT → (vm.g_membuf imm1).type ≠ MB_VOID →
      imm2 ≥ get_buffer_capacity (vm.g_membuf imm1).type →
      (op_buf_read vm opnd imm1 imm2).1 = VM_ERR_INVALID_BUFFER_POS) ∧
    (imm1 < G_MEMBUF_COUNT → (vm.g_membuf imm1).type ≠ MB_VOID →
      (op_buf_read vm opnd imm1
        (get_buffer_capacity (vm.g_membuf imm1).type - 1)).1 = VM_OK) ∧
    (imm1 < G_MEMBUF_COUNT →
      imm2 < get_buffer_capacity (vm.g_membuf imm1).type →
      (op_buf_read vm opnd imm1 imm2).1 = VM_OK ∧
      (((op_buf_read vm opnd imm1 imm2).2.stack_frames vm.sp).stack_vars opnd =
        match (vm.g_membuf imm1).type with
        | MB_U8 => ⟨V_U32, membuf_u8_get (vm.g_membuf imm1) imm2⟩
        | MB_U16 => ⟨V_U32, membuf_u16_get (vm.g_membuf imm1) imm2⟩
        | MB_I32 =>
          ⟨V_I32, ofInt32 (toSigned32 (membuf_w32_get (vm.g_membuf imm1) imm2))⟩
        | MB_U32 => ⟨V_U32, membuf_w32_get (vm.g_membuf imm1) imm2⟩
        | MB_FLOAT => ⟨V_FLOAT, membuf_w32_get (vm.g_membuf imm1) imm2⟩
        | MB_VOID => void_value)) := by
  refine ⟨?_, ?_, ?_, ?_, ?_⟩
  · intro hge
    simp [op_buf_read, get_stack_var, hop, validate_buffer_idx, hge]
  · intro hlt hvoid
    simp [op_buf_read, get_stack_var, hop, validate_buffer_idx, hlt, hvoid]
  · intro hlt hvoid hpos
    have hpos' : ¬ (imm2 < get_buffer_capacity (vm.g_membuf imm1).type) := by
      omega
    simp [op_buf_read, get_stack_var, hop, validate_buffer_idx, hlt, hvoid,
      validate_buffer_pos, hpos']
  · intro hlt hvoid
    have hcap : 0 < get_buffer_capacity (vm.g_membuf imm1).type := by
      cases htype : (vm.g_membuf imm1).type
      · exact absurd htype hvoid
      all_goals simp [get_buffer_capacity, MEMBUF_U8_COUNT, MEMBUF_U16_COUNT,
        MEMBUF_I32_COUNT, MEMBUF_U32_COUNT, MEMBUF_F32_COUNT]
    simp only [op_buf_read, get_stack_var, hop, validate_buffer_idx]
    cases htype : (vm.g_membuf imm1).type
    · exact absurd htype hvoid
    all_goals
      simp [htype, hlt, validate_buffer_pos, get_buffer_capacity,
        MEMBUF_U8_COUNT, MEMBUF_U16_COUNT, MEMBUF_I32_COUNT, MEMBUF_U32_COUNT,
        MEMBUF_F32_COUNT]
  · intro hlt hpos
    have hvoid : (vm.g_membuf imm1).type ≠ MB_VOID := by
      intro hv
      rw [hv] at hpos
      simp [get_buffer_capacity] at hpos
    cases htype : (vm.g_membuf imm1).type
    · exact absurd htype hvoid
    all_goals
      rw [htype] at hpos
      refine ⟨?_, ?_⟩
      · simp [op_buf_read, get_stack_var, hop, validate_buffer_idx, hlt, htype,
          validate_buffer_pos, hpos]
      · simp [op_buf_read, get_stack_var, hop, validate_buffer_idx, hlt, htype,
          validate_buffer_pos, hpos, set_stack_var, Function.update_apply]

/-- A machine with buffer 7 typed `U8`, for exercising the C3 contract. -/
def c3_vm : vm_state_t := set_membuf vm_init 7 ⟨MB_U8, fun _ => 0⟩

/-- Witness for C3 at concrete inputs: buffer index 300 is rejected, a void
buffer is a type mismatch, position 256 of a U8 buffer is rejected while
position 255 succeeds. -/
theorem c3_buf_read_contract_witness :
    (op_buf_read vm_init 0 300 0).1 = VM_ERR_INVALID_BUFFER_IDX ∧
    (op_buf_read vm_init 0 5 0).1 = VM_ERR_TYPE_MISMATCH ∧
    (op_buf_read c3_vm 0 7 256).1 = VM_ERR_INVALID_BUFFER_POS ∧
    (op_buf_read c3_vm 0 7 255).1 = VM_OK :=
  ⟨(c3_buf_read_contract vm_init 0 300 0 (by decide)).1 (by decide),
   (c3_buf_read_contract vm_init 0 5 0 (by decide)).2.1 (by decide) (by decide),
   (c3_buf_read_contract c3_vm 0 7 256 (by decide)).2.2.1 (by decide)
     (by decide) (by decide),
   (c3_buf_read_contract c3_vm 0 7 255 (by decide)).2.2.2.1 (by decide)
     (by decide)⟩

/- ================= decoded-field views of the current instruction ====== -/

def fetch_opnd (vm : vm_state_t) : Nat := vm.program (vm.pc + 1)

def fetch_pl (vm : vm_state_t) : Nat := vm.program (vm.pc + 2) % 16

def fetch_size (vm : vm_state_t) : Nat := 4 + fetch_pl vm * 4

def fetch_imm (vm : vm_state_t) (k : Nat) : Nat :=
  if fetch_pl vm ≥ k then word32 vm.program (vm.pc + 4 * k) else 0

/-- `vm_step` under a successful fetch: the result is the dispatch result
with the PC committed on success and the status latched. -/
theorem vm_step_fetch_ok (h : HostOps) (vm : vm_state_t) (io : StdStreams)
    (hA : ¬(vm.pc ≥ vm.program_len ∨ vm.program_len - vm.pc < 4))
    (hB : ¬(vm.pc + (4 + vm.program (vm.pc + 2) % 16 * 4) > vm.program_len ∨
      vm.program (vm.pc + 2) % 16 > 3)) :
    vm_step h vm io =
      (let r := run_op h vm io (decode_opcode (vm.program vm.pc))
        (fetch_opnd vm) (fetch_imm vm 1) (fetch_imm vm 2) (fetch_imm vm 3)
        (vm.pc + fetch_size vm)
       (r.1, { (if r.1 = VM_OK then { r.2.1 with pc := r.2.2.2 } else r.2.1) with
          last_error := r.1 }, r.2.2.1)) := by
  unfold vm_step
  rw [if_neg hA]
  dsimp only
  rw [if_neg hB]
  rfl

/- ================= claim C4 ================= -/

/-- The frame CALL installs at `sp + 1`: saved return address and cleared
locals, stack variables preserved. -/
def call_frame (vm : vm_state_t) (npc : Nat) : stack_frame_t :=
  { vm.stack_frames (vm.sp + 1) with
    return_addr := npc
    locals := fun _ => void_value }

/-- The machine state after a successful CALL to `target`. -/
def call_state (vm : vm_state_t) (target npc : Nat) : vm_state_t :=
  { vm with
    stack_frames := Function.update vm.stack_frames (vm.sp + 1) (call_frame vm npc)
    sp := vm.sp + 1
    pc := target
    last_error := VM_OK }

/-- Claim C4 (amended): a CALL fetched at `pc` with `sp < 31` and a valid
target writes `return_addr = pc + instruction size` (which is `pc + 8` for
the canonical single-payload-word encoding, but `pc + 12`/`pc + 16` for
longer encodings) into frame `sp+1`, increments `sp`, resets the new
frame's 64 locals to void/0 leaving its stack variables untouched, and sets
the PC to the target; a CALL at `sp = 31` returns `STACK_OVERFLOW` leaving
everything but `last_error` unchanged. -/
theorem c4_call_contract (h : HostOps) (vm : vm_state_t) (io : StdStreams)
    (hop : vm.program vm.pc = 0x09)
    (hpc : vm.pc < vm.program_len)
    (hrem : 4 ≤ vm.program_len - vm.pc)
    (hpl : fetch_pl vm ≤ 3)
    (hsize : vm.pc + fetch_size vm ≤ vm.program_len) :
    (vm.sp < STACK_DEPTH - 1 → fetch_imm vm 1 < vm.program_len →
      vm_step h vm io =
        (VM_OK, call_state vm (fetch_imm vm 1) (vm.pc + fetch_size vm), io)) ∧
    (vm.sp = STACK_DEPTH - 1 →
      vm_step h vm io =
        (VM_ERR_STACK_OVERFLOW,
          { vm with last_error := VM_ERR_STACK_OVERFLOW }, io)) := by
  have hA : ¬(vm.pc ≥ vm.program_len ∨ vm.program_len - vm.pc < 4) := by omega
  have hB : ¬(vm.pc + (4 + vm.program (vm.pc + 2) % 16 * 4) > vm.program_len ∨
      vm.program (vm.pc + 2) % 16 > 3) := by
    simp only [fetch_size, fetch_pl] at hpl hsize
    omega
  have hdec : decode_opcode 9 = OP_CALL := rfl
  constructor
  · intro hsp htar
    rw [vm_step_fetch_ok h vm io hA hB, hop, hdec]
    dsimp only [run_op]
    unfold op_call
    rw [if_neg (by unfold STACK_DEPTH at *; omega : ¬ vm.sp ≥ STACK_DEPTH - 1)]
    rw [if_neg (by omega : ¬ fetch_imm vm 1 ≥ vm.program_len)]
    rfl
  · intro hsp
    rw [vm_step_fetch_ok h vm io hA hB, hop, hdec]
    dsimp only [run_op]
    unfold op_call
    rw [if_pos (by omega : vm.sp ≥ STACK_DEPTH - 1)]
    rfl

/-- A CALL encoded with two payload words (payload_len = 2, instruction size
12), target 0, loaded at pc 0. -/
def c4_cex_vm : vm_state_t :=
  (vm_load_program vm_init [0x09, 0, 2, 0, 0, 0, 0, 0, 0, 0, 0, 0]).2

/-- Counterexample to C4 as stated: this CALL executes successfully from
`sp = 0 < 31` with a valid target, yet writes `return_addr = pc + 12`
(the instruction size), not `pc + 8`. -/
theorem c4_counterexample :
    c4_cex_vm.sp < STACK_DEPTH - 1 ∧
    (vm_step hostZero c4_cex_vm ⟨[], []⟩).1 = VM_OK ∧
    ((vm_step hostZero c4_cex_vm ⟨[], []⟩).2.1.stack_frames
      (c4_cex_vm.sp + 1)).return_addr = c4_cex_vm.pc + 12 ∧
    c4_cex_vm.pc + 12 ≠ c4_cex_vm.pc + 8 := by
  refine ⟨by decide, rfl, rfl, by decide⟩

/-- A canonical single-payload-word CALL (instruction size 8), target 0. -/
def c4_w_vm : vm_state_t :=
  (vm_load_program vm_init [0x09, 0, 1, 0, 0, 0, 0, 0]).2

/-- Witness for the amended C4: the canonical CALL succeeds producing
exactly the predicted state, and the same CALL attempted at `sp = 31`
reports a stack overflow changing only `last_error`. -/
theorem c4_call_contract_witness :
    vm_step hostZero c4_w_vm ⟨[], []⟩ =
      (VM_OK, call_state c4_w_vm (fetch_imm c4_w_vm 1)
        (c4_w_vm.pc + fetch_size c4_w_vm), ⟨[], []⟩) ∧
    vm_step hostZero { c4_w_vm with sp := 31 } ⟨[], []⟩ =
      (VM_ERR_STACK_OVERFLOW,
        { { c4_w_vm with sp := 31 } with last_error := VM_ERR_STACK_OVERFLOW },
        ⟨[], []⟩) :=
  ⟨(c4_call_contract hostZero c4_w_vm ⟨[], []⟩ rfl (by decide) (by decide)
      (by decide) (by decide)).1 (by decide) (by decide),
   (c4_call_contract hostZero { c4_w_vm with sp := 31 } ⟨[], []⟩ rfl (by decide)
      (by decide) (by decide) (by decide)).2 rfl⟩

/- ================= claim C5 ================= -/

/-- A NOP header claiming one payload word, loaded as a 4-byte program: the
header is in bounds but the full instruction runs past the program end. -/
def c5_vm : vm_state_t := (vm_load_program vm_init [0, 0, 1, 0]).2

/-- Counterexample to C5 as stated: the truncated instruction satisfies the
claim's premises (header in bounds, payload_len ≤ 3, total size past the
end), but `vm_step` returns `VM_ERR_INVALID_INSTRUCTION`, not
`VM_ERR_INVALID_PC`. -/
theorem c5_counterexample :
    c5_vm.pc < c5_vm.program_len ∧ 4 ≤ c5_vm.program_len - c5_vm.pc ∧
    fetch_pl c5_vm ≤ 3 ∧ c5_vm.pc + fetch_size c5_vm > c5_vm.program_len ∧
    (vm_step hostZero c5_vm ⟨[], []⟩).1 = VM_ERR_INVALID_INSTRUCTION ∧
    (vm_step hostZero c5_vm ⟨[], []⟩).1 ≠ VM_ERR_INVALID_PC := by
  refine ⟨by decide, by decide, by decide, by decide, rfl, by decide⟩

/-- Claim C5 (amended): when the 4-byte header lies within the program but
`pc + 4 + 4·payload_len` exceeds `program_len` (payload_len ≤ 3), `vm_step`
returns `VM_ERR_INVALID_INSTRUCTION` — the same status as for
`payload_len > 3` — and only `last_error` changes; `VM_ERR_INVALID_PC` is
reserved for failures to fetch the 4-byte header itself. -/
theorem c5_truncated_instruction (h : HostOps) (vm : vm_state_t)
    (io : StdStreams)
    (hpc : vm.pc < vm.program_len)
    (hrem : 4 ≤ vm.program_len - vm.pc)
    (_hpl : fetch_pl vm ≤ 3)
    (hover : vm.pc + fetch_size vm > vm.program_len) :
    vm_step h vm io =
      (VM_ERR_INVALID_INSTRUCTION,
        { vm with last_error := VM_ERR_INVALID_INSTRUCTION }, io) := by
  unfold vm_step
  rw [if_neg (by omega : ¬(vm.pc ≥ vm.program_len ∨ vm.program_len - vm.pc < 4))]
  dsimp only
  rw [if_pos]
  exact Or.inl (by simp only [fetch_size, fetch_pl] at hover; exact hover)

/-- Witness for the amended C5 at the concrete truncated program. -/
theorem c5_truncated_instruction_witness :
    vm_step hostZero c5_vm ⟨[], []⟩ =
      (VM_ERR_INVALID_INSTRUCTION,
        { c5_vm with last_error := VM_ERR_INVALID_INSTRUCTION }, ⟨[], []⟩) :=
  c5_truncated_instruction hostZero c5_vm ⟨[], []⟩ (by decide) (by decide)
    (by decide) (by decide)

/- ================= claim C6 ================= -/

/-- Dividend `INT32_MIN` (pattern 0x80000000) in slot 0 and divisor `-1`
(pattern 0xFFFFFFFF) in slot 1, both tagged `I32`. -/
def c6_vm : vm_state_t :=
  set_stack_var (set_stack_var vm_init 0 ⟨V_I32, 0x80000000⟩) 1 ⟨V_I32, 0xFFFFFFFF⟩

/-- Evaluation of `DIV_I32`/`MOD_I32` at the claim's critical input
`INT32_MIN / -1` in this embedding.  The C source computes
`src1->val.i32 / src2->val.i32` with no `INT32_MIN / -1` guard, which ISO C
leaves undefined (a trapping `SIGFPE` on mainstream hosts); the embedding
has to assign it a value and uses the wrap-around convention the design
documents elsewhere, under which the quotient is `INT32_MIN` again and the
remainder 0, and only a zero divisor yields `VM_ERR_DIV_BY_ZERO`. -/
theorem c6_div_i32_failing_input_eval :
    toSigned32 0x80000000 = -(2 ^ 31 : Int) ∧
    toSigned32 0xFFFFFFFF = -1 ∧
    (arith3 c6_vm 2 0 1 V_I32 (i32_divop Int.tdiv)).1 = VM_OK ∧
    ((arith3 c6_vm 2 0 1 V_I32 (i32_divop Int.tdiv)).2.stack_frames
      0).stack_vars 2 = ⟨V_I32, 0x80000000⟩ ∧
    (arith3 c6_vm 2 0 1 V_I32 (i32_divop Int.tmod)).1 = VM_OK ∧
    ((arith3 c6_vm 2 0 1 V_I32 (i32_divop Int.tmod)).2.stack_frames
      0).stack_vars 2 = ⟨V_I32, 0⟩ := by
  refine ⟨by decide, by decide, rfl, by decide, rfl, by decide⟩

/- ================= claim C7 ================= -/

/-- `1.0f` in slot 0 and `+0.0f` in slot 1, both tagged float. -/
def c7_vm : vm_state_t :=
  set_stack_var (set_stack_var vm_init 0 ⟨V_FLOAT, 0x3F800000⟩) 1 ⟨V_FLOAT, 0⟩

/-- Counterexample to C7 as stated: `DIV_F32` with a zero divisor returns
`VM_ERR_DIV_BY_ZERO` (leaving the state unchanged) instead of producing an
IEEE Inf/NaN result — the handler checks `src2->val.f32 == 0.0f` first. -/
theorem c7_counterexample :
    (arith3 c7_vm 2 0 1 V_FLOAT (f32_divop hostZero.f_div)).1 =
      VM_ERR_DIV_BY_ZERO ∧
    (arith3 c7_vm 2 0 1 V_FLOAT (f32_divop hostZero.f_div)).2 = c7_vm :=
  ⟨rfl, rfl⟩

/-- Claim C7 (amended): for float arithmetic on valid slots whose sources
both carry tag `FLOAT`, `ADD/SUB/MUL_F32` always succeed and write the
host's IEEE-754 result untrapped; `DIV_F32` alone screens its divisor —
a ±0.0 bit pattern yields `VM_ERR_DIV_BY_ZERO` with the state unchanged,
and any other divisor (NaN and Inf included) succeeds, writing the IEEE
quotient. -/
theorem c7_f32_arith_contract (h : HostOps) (vm : vm_state_t)
    (opnd i1 i2 : Nat)
    (hop : opnd < STACK_VAR_COUNT) (hi1 : i1 < STACK_VAR_COUNT)
    (hi2 : i2 < STACK_VAR_COUNT)
    (ht1 : ((vm.stack_frames vm.sp).stack_vars i1).type = V_FLOAT)
    (ht2 : ((vm.stack_frames vm.sp).stack_vars i2).type = V_FLOAT) :
    (f32_is_zero ((vm.stack_frames vm.sp).stack_vars i2).raw = true →
      (arith3 vm opnd i1 i2 V_FLOAT (f32_divop h.f_div)).1 =
        VM_ERR_DIV_BY_ZERO ∧
      (arith3 vm opnd i1 i2 V_FLOAT (f32_divop h.f_div)).2 = vm) ∧
    (f32_is_zero ((vm.stack_frames vm.sp).stack_vars i2).raw = false →
      (arith3 vm opnd i1 i2 V_FLOAT (f32_divop h.f_div)).1 = VM_OK ∧
      (((arith3 vm opnd i1 i2 V_FLOAT (f32_divop h.f_div)).2.stack_frames
          vm.sp).stack_vars opnd =
        ⟨V_FLOAT, h.f_div ((vm.stack_frames vm.sp).stack_vars i1).raw
          ((vm.stack_frames vm.sp).stack_vars i2).raw⟩)) ∧
    ((arith3 vm opnd i1 i2 V_FLOAT (f32_binop h.f_add)).1 = VM_OK ∧
      (((arith3 vm opnd i1 i2 V_FLOAT (f32_binop h.f_add)).2.stack_frames
          vm.sp).stack_vars opnd =
        ⟨V_FLOAT, h.f_add ((vm.stack_frames vm.sp).stack_vars i1).raw
          ((vm.stack_frames vm.sp).stack_vars i2).raw⟩)) := by
  have e1 : i1 % 256 = i1 := Nat.mod_eq_of_lt (by
    unfold STACK_VAR_COUNT at hi1
    omega)
  have e2 : i2 % 256 = i2 := Nat.mod_eq_of_lt (by
    unfold STACK_VAR_COUNT at hi2
    omega)
  refine ⟨fun hz => ?_, fun hz => ?_, ?_⟩
  · constructor
    · simp [arith3, get_stack_var, hop, hi1, hi2, e1, e2, ht1, ht2, f32_divop,
        hz]
    · simp [arith3, get_stack_var, hop, hi1, hi2, e1, e2, ht1, ht2, f32_divop,
        hz]
  · constructor
    · simp [arith3, get_stack_var, hop, hi1, hi2, e1, e2, ht1, ht2, f32_divop,
        hz]
    · simp [arith3, get_stack_var, hop, hi1, hi2, e1, e2, ht1, ht2, f32_divop,
        hz, set_stack_var, Function.update_apply]
  · constructor
    · simp [arith3, get_stack_var, hop, hi1, hi2, e1, e2, ht1, ht2, f32_binop]
    · simp [arith3, get_stack_var, hop, hi1, hi2, e1, e2, ht1, ht2, f32_binop,
        set_stack_var, Function.update_apply]

/-- `1.0f` in slot 0 and `2.0f` (pattern 0x40000000) in slot 1. -/
def c7_w_vm : vm_state_t :=
  set_stack_var (set_stack_var vm_init 0 ⟨V_FLOAT, 0x3F800000⟩) 1
    ⟨V_FLOAT, 0x40000000⟩

/-- Witness for the amended C7: with a nonzero divisor the division
succeeds and writes the host quotient; with a zero divisor it reports
`DIV_BY_ZERO`; addition always succeeds. -/
theorem c7_f32_arith_contract_witness :
    ((arith3 c7_w_vm 2 0 1 V_FLOAT (f32_divop hostZero.f_div)).1 = VM_OK ∧
      (((arith3 c7_w_vm 2 0 1 V_FLOAT
          (f32_divop hostZero.f_div)).2.stack_frames c7_w_vm.sp).stack_vars 2 =
        ⟨V_FLOAT, hostZero.f_div ((c7_w_vm.stack_frames c7_w_vm.sp).stack_vars 0).raw
          ((c7_w_vm.stack_frames c7_w_vm.sp).stack_vars 1).raw⟩)) ∧
    ((arith3 c7_vm 2 0 1 V_FLOAT (f32_divop hostZero.f_div)).1 =
        VM_ERR_DIV_BY_ZERO ∧
      (arith3 c7_vm 2 0 1 V_FLOAT (f32_divop hostZero.f_div)).2 = c7_vm) ∧
    ((arith3 c7_w_vm 2 0 1 V_FLOAT (f32_binop hostZero.f_add)).1 = VM_OK ∧
      (((arith3 c7_w_vm 2 0 1 V_FLOAT
          (f32_binop hostZero.f_add)).2.stack_frames c7_w_vm.sp).stack_vars 2 =
        ⟨V_FLOAT, hostZero.f_add ((c7_w_vm.stack_frames c7_w_vm.sp).stack_vars 0).raw
          ((c7_w_vm.stack_frames c7_w_vm.sp).stack_vars 1).raw⟩)) :=
  ⟨(c7_f32_arith_contract hostZero c7_w_vm 2 0 1 (by decide) (by decide)
      (by decide) (by decide) (by decide)).2.1 (by decide),
   (c7_f32_arith_contract hostZero c7_vm 2 0 1 (by decide) (by decide)
      (by decide) (by decide) (by decide)).1 (by decide),
   (c7_f32_arith_contract hostZero c7_w_vm 2 0 1 (by decide) (by decide)
      (by decide) (by decide) (by decide)).2.2⟩

/- ================= claim C8 ================= -/

/-- Chains of `VM_OK` steps of the machine-and-streams pair. -/
inductive run_ok_steps (h : HostOps) :
    vm_state_t × StdStreams → vm_state_t × StdStreams → Prop
  | refl (a : vm_state_t × StdStreams) : run_ok_steps h a a
  | cons (a b c : vm_state_t × StdStreams) :
      vm_step h a.1 a.2 = (VM_OK, b.1, b.2) → run_ok_steps h b c →
      run_ok_steps h a c

/-- Claim C8: whenever `vm_run` terminates it has iterated `vm_step` through
a chain of `VM_OK` results to some state whose step returns a non-`VM_OK`
status `t`; if `t` is `VM_ERR_HALT` the run returns `VM_OK` (normal
termination), and any other `t` is propagated out unchanged. -/
theorem c8_run_contract (h : HostOps) (fuel : Nat) (vm : vm_state_t)
    (io : StdStreams) (s : vm_status_t) (vmf : vm_state_t) (iof : StdStreams)
    (hrun : vm_run h fuel vm io = some (s, vmf, iof)) :
    ∃ (vmp : vm_state_t) (iop : StdStreams) (t : vm_status_t),
      run_ok_steps h (vm, io) (vmp, iop) ∧
      vm_step h vmp iop = (t, vmf, iof) ∧ t ≠ VM_OK ∧
      s = (if t = VM_ERR_HALT then VM_OK else t) := by
  induction fuel generalizing vm io with
  | zero => simp [vm_run] at hrun
  | succ n ih =>
    unfold vm_run at hrun
    split at hrun
    · rename_i vm' io' heq
      obtain ⟨vmp, iop, t, hsteps, hlast, hne, hs⟩ := ih vm' io' hrun
      exact ⟨vmp, iop, t,
        run_ok_steps.cons (vm, io) (vm', io') (vmp, iop) heq hsteps,
        hlast, hne, hs⟩
    · rename_i vm' io' heq
      injection hrun with e
      injection e with e1 e2
      injection e2 with e2 e3
      subst e1
      subst e2
      subst e3
      exact ⟨vm, io, VM_ERR_HALT, run_ok_steps.refl (vm, io), heq,
        by decide, by decide⟩
    · rename_i st vm' io' hne1 hne2 heq
      injection hrun with e
      injection e with e1 e2
      injection e2 with e2 e3
      subst e1
      subst e2
      subst e3
      exact ⟨vm, io, st, run_ok_steps.refl (vm, io), heq, hne1,
        (if_neg hne2).symm⟩

/-- A program consisting of the single instruction `HALT`. -/
def c8_vm : vm_state_t := (vm_load_program vm_init [1, 0, 0, 0]).2

/-- Witness for C8: running the one-instruction HALT program terminates with
`VM_OK` after a chain of OK steps ending in a `VM_ERR_HALT` step. -/
theorem c8_run_contract_witness :
    ∃ (vmp : vm_state_t) (iop : StdStreams) (t : vm_status_t),
      run_ok_steps hostZero (c8_vm, ⟨[], []⟩) (vmp, iop) ∧
      vm_step hostZero vmp iop =
        (t, { c8_vm with last_error := VM_ERR_HALT }, ⟨[], []⟩) ∧
      t ≠ VM_OK ∧ VM_OK = (if t = VM_ERR_HALT then VM_OK else t) :=
  c8_run_contract hostZero 1 c8_vm ⟨[], []⟩ VM_OK
    { c8_vm with last_error := VM_ERR_HALT } ⟨[], []⟩ rfl

/- ================= claim C9 ================= -/

/-- Storing the signed reading of a 32-bit pattern back into the union
reproduces the pattern. -/
theorem ofInt32_toSigned32 (x : Nat) (hx : x < 2 ^ 32) :
    ofInt32 (toSigned32 x) = x := by
  unfold ofInt32 toSigned32
  split <;> omega

/-- Claim C9: for every 32-bit pattern `x` held in a stack variable with tag
`I32`, executing `I32_TO_U32` and then `U32_TO_I32` (through valid slot
indices) succeeds and yields a stack variable with tag `I32` holding the
same pattern `x`. -/
theorem c9_conversion_roundtrip (vm : vm_state_t) (a b c : Nat)
    (ha : a < STACK_VAR_COUNT) (hb : b < STACK_VAR_COUNT)
    (hc : c < STACK_VAR_COUNT) (x : Nat) (hx : x < 2 ^ 32)
    (hsrc : (vm.stack_frames vm.sp).stack_vars a = ⟨V_I32, x⟩) :
    (arith2 vm b a V_I32 (fun s => ⟨V_U32, ofInt32 (toSigned32 s.raw)⟩)).1 =
      VM_OK ∧
    (arith2 (arith2 vm b a V_I32
        (fun s => ⟨V_U32, ofInt32 (toSigned32 s.raw)⟩)).2 c b V_U32
      (fun s => ⟨V_I32, ofInt32 (toSigned32 s.raw)⟩)).1 = VM_OK ∧
    ((arith2 (arith2 vm b a V_I32
        (fun s => ⟨V_U32, ofInt32 (toSigned32 s.raw)⟩)).2 c b V_U32
      (fun s => ⟨V_I32, ofInt32 (toSigned32 s.raw)⟩)).2.stack_frames
        vm.sp).stack_vars c = ⟨V_I32, x⟩ := by
  have ea : a % 256 = a := Nat.mod_eq_of_lt (by
    unfold STACK_VAR_COUNT at ha
    omega)
  have eb : b % 256 = b := Nat.mod_eq_of_lt (by
    unfold STACK_VAR_COUNT at hb
    omega)
  refine ⟨?_, ?_, ?_⟩
  · simp [arith2, get_stack_var, ha, hb, ea, hsrc]
  · simp [arith2, get_stack_var, ha, hb, hc, ea, eb, hsrc, set_stack_var,
      Function.update_apply]
  · simp [arith2, get_stack_var, ha, hb, hc, ea, eb, hsrc, set_stack_var,
      Function.update_apply, ofInt32_toSigned32 x hx]

/-- The pattern 0xDEADBEEF (high bit set) tagged `I32` in slot 0. -/
def c9_vm : vm_state_t := set_stack_var vm_init 0 ⟨V_I32, 0xDEADBEEF⟩

/-- Witness for C9 at the concrete pattern 0xDEADBEEF. -/
theorem c9_conversion_roundtrip_witness :
    (arith2 c9_vm 1 0 V_I32 (fun s => ⟨V_U32, ofInt32 (toSigned32 s.raw)⟩)).1 =
      VM_OK ∧
    (arith2 (arith2 c9_vm 1 0 V_I32
        (fun s => ⟨V_U32, ofInt32 (toSigned32 s.raw)⟩)).2 2 1 V_U32
      (fun s => ⟨V_I32, ofInt32 (toSigned32 s.raw)⟩)).1 = VM_OK ∧
    ((arith2 (arith2 c9_vm 1 0 V_I32
        (fun s => ⟨V_U32, ofInt32 (toSigned32 s.raw)⟩)).2 2 1 V_U32
      (fun s => ⟨V_I32, ofInt32 (toSigned32 s.raw)⟩)).2.stack_frames
        c9_vm.sp).stack_vars 2 = ⟨V_I32, 0xDEADBEEF⟩ :=
  c9_conversion_roundtrip c9_vm 0 1 2 (by decide) (by decide) (by decide)
    0xDEADBEEF (by decide) (by decide)

/- ================= claim C10: buffer-type tracking ================= -/

theorem buf_set_byte_type (st : Nat → membuf_t) (bi i v j : Nat) :
    ((buf_set_byte st bi i v) j).type = (st j).type := by
  by_cases hj : j = bi
  · subst hj
    simp [buf_set_byte, membuf_u8_set, Function.update_apply]
  · simp [buf_set_byte, Function.update_apply, hj]

theorem read_str_loop_type (bi : Nat) (fuel : Nat) :
    ∀ (st : Nat → membuf_t) (inp : List Nat) (i j : Nat),
      ((read_str_loop st bi inp i fuel).1 j).type = (st j).type := by
  induction fuel with
  | zero => intro st inp i j; rfl
  | succ n ih =>
    intro st inp i j
    unfold read_str_loop
    match inp with
    | [] => rfl
    | c :: rest =>
      dsimp only
      split
      · rfl
      · rw [ih]
        exact buf_set_byte_type st bi i c j

theorem arith3_membuf (vm : vm_state_t) (opnd i1 i2 : Nat)
    (req : var_value_type_t)
    (f : var_value_t → var_value_t → vm_status_t ⊕ var_value_t) :
    (arith3 vm opnd i1 i2 req f).2.g_membuf = vm.g_membuf := by
  unfold arith3
  repeat' split
  all_goals rfl

theorem arith2_membuf (vm : vm_state_t) (opnd i1 : Nat)
    (req : var_value_type_t) (f : var_value_t → var_value_t) :
    (arith2 vm opnd i1 req f).2.g_membuf = vm.g_membuf := by
  unfold arith2
  repeat' split
  all_goals rfl

theorem cmp2_membuf (vm : vm_state_t) (i1 i2 : Nat)
    (req : var_value_type_t) (fl : var_value_t → var_value_t → Nat) :
    (cmp2 vm i1 i2 req fl).2.g_membuf = vm.g_membuf := by
  unfold cmp2
  repeat' split
  all_goals rfl

theorem op_call_membuf (vm : vm_state_t) (imm1 npc : Nat) :
    (op_call vm imm1 npc).2.1.g_membuf = vm.g_membuf := by
  unfold op_call
  repeat' split
  all_goals rfl

theorem op_ret_membuf (vm : vm_state_t) (npc : Nat) :
    (op_ret vm npc).2.1.g_membuf = vm.g_membuf := by
  unfold op_ret
  repeat' split
  all_goals rfl

theorem op_load_g_membuf (vm : vm_state_t) (opnd imm1 : Nat) :
    (op_load_g vm opnd imm1).2.g_membuf = vm.g_membuf := by
  unfold op_load_g
  repeat' split
  all_goals rfl

theorem op_load_l_membuf (vm : vm_state_t) (opnd imm1 : Nat) :
    (op_load_l vm opnd imm1).2.g_membuf = vm.g_membuf := by
  unfold op_load_l
  repeat' split
  all_goals rfl

theorem op_load_s_membuf (vm : vm_state_t) (opnd imm1 : Nat) :
    (op_load_s vm opnd imm1).2.g_membuf = vm.g_membuf := by
  unfold op_load_s
  repeat' split
  all_goals rfl

theorem op_load_imm_membuf (vm : vm_state_t) (opnd imm1 : Nat)
    (tag : var_value_type_t) :
    (op_load_imm vm opnd imm1 tag).2.g_membuf = vm.g_membuf := by
  unfold op_load_imm
  repeat' split
  all_goals rfl

theorem op_load_ret_membuf (vm : vm_state_t) (opnd imm1 : Nat) :
    (op_load_ret vm opnd imm1).2.g_membuf = vm.g_membuf := by
  unfold op_load_ret
  repeat' split
  all_goals rfl

theorem op_store_g_membuf (vm : vm_state_t) (opnd imm1 : Nat) :
    (op_store_g vm opnd imm1).2.g_membuf = vm.g_membuf := by
  unfold op_store_g
  repeat' split
  all_goals rfl

theorem op_store_l_membuf (vm : vm_state_t) (opnd imm1 : Nat) :
    (op_store_l vm opnd imm1).2.g_membuf = vm.g_membuf := by
  unfold op_store_l
  repeat' split
  all_goals rfl

theorem op_store_s_membuf (vm : vm_state_t) (opnd imm1 : Nat) :
    (op_store_s vm opnd imm1).2.g_membuf = vm.g_membuf := by
  unfold op_store_s
  repeat' split
  all_goals rfl

theorem op_store_ret_membuf (vm : vm_state_t) (opnd imm1 : Nat) :
    (op_store_ret vm opnd imm1).2.g_membuf = vm.g_membuf := by
  unfold op_store_ret
  repeat' split
  all_goals rfl

theorem op_buf_read_membuf (vm : vm_state_t) (opnd imm1 imm2 : Nat) :
    (op_buf_read vm opnd imm1 imm2).2.g_membuf = vm.g_membuf := by
  unfold op_buf_read
  dsimp only
  repeat' split
  all_goals rfl

theorem op_buf_len_membuf (vm : vm_state_t) (opnd imm1 : Nat) :
    (op_buf_len vm opnd imm1).2.g_membuf = vm.g_membuf := by
  unfold op_buf_len
  repeat' split
  all_goals rfl

theorem op_str_len_membuf (vm : vm_state_t) (opnd imm1 : Nat) :
    (op_str_len vm opnd imm1).2.g_membuf = vm.g_membuf := by
  unfold op_str_len
  repeat' split
  all_goals rfl

theorem op_str_cmp_membuf (vm : vm_state_t) (imm1 imm2 : Nat) :
    (op_str_cmp vm imm1 imm2).2.g_membuf = vm.g_membuf := by
  unfold op_str_cmp
  repeat' split
  all_goals rfl

theorem op_str_chr_membuf (vm : vm_state_t) (opnd imm1 imm2 : Nat) :
    (op_str_chr vm opnd imm1 imm2).2.g_membuf = vm.g_membuf := by
  unfold op_str_chr
  repeat' split
  all_goals rfl

theorem op_print_var_membuf (vm : vm_state_t) (io : StdStreams) (i1 : Nat)
    (req : var_value_type_t) (fmt : var_value_t → List Nat) :
    (op_print_var vm io i1 req fmt).2.1.g_membuf = vm.g_membuf := by
  unfold op_print_var
  repeat' split
  all_goals rfl

theorem op_print_str_membuf (vm : vm_state_t) (io : StdStreams) (imm1 : Nat) :
    (op_print_str vm io imm1).2.1.g_membuf = vm.g_membuf := by
  unfold op_print_str
  repeat' split
  all_goals rfl

theorem op_read_var_membuf (vm : vm_state_t) (io : StdStreams) (opnd : Nat)
    (scan : List Nat → Option Nat × List Nat) (tag : var_value_type_t) :
    (op_read_var vm io opnd scan tag).2.1.g_membuf = vm.g_membuf := by
  unfold op_read_var
  repeat' split
  all_goals rfl

theorem op_buf_write_types (vm : vm_state_t) (opnd imm1 imm2 j : Nat) :
    ((op_buf_write vm opnd imm1 imm2).2.g_membuf j).type =
      (vm.g_membuf j).type := by
  unfold op_buf_write
  dsimp only
  repeat' split
  all_goals
    first
    | rfl
    | (by_cases hj : j = imm1
       · subst hj
         simp [set_membuf, membuf_u8_set, membuf_u16_set, membuf_w32_set,
           Function.update_apply]
       · simp [set_membuf, Function.update_apply, hj])

theorem op_buf_clear_types (vm : vm_state_t) (imm1 j : Nat) :
    ((op_buf_clear vm imm1).2.g_membuf j).type = (vm.g_membuf j).type := by
  unfold op_buf_clear
  repeat' split
  all_goals
    first
    | rfl
    | (by_cases hj : j = imm1
       · subst hj
         simp [set_membuf, Function.update_apply]
       · simp [set_membuf, Function.update_apply, hj])

theorem op_str_set_chr_types (vm : vm_state_t) (imm1 imm2 imm3 j : Nat) :
    ((op_str_set_chr vm imm1 imm2 imm3).2.g_membuf j).type =
      (vm.g_membuf j).type := by
  unfold op_str_set_chr
  repeat' split
  all_goals
    first
    | rfl
    | (by_cases hj : j = imm1
       · subst hj
         simp [set_membuf, membuf_u8_set, Function.update_apply]
       · simp [set_membuf, Function.update_apply, hj])

/-- Apart from `STR_CAT`, `STR_COPY` and `READ_STR`, no dispatch arm ever
turns a void buffer into a typed one (`BUF_WRITE` rejects void buffers and
the other buffer writers keep the tag). -/
theorem run_op_void_membuf (h : HostOps) (vm : vm_state_t) (io : StdStreams)
    (o : opcode_t) (opnd imm1 imm2 imm3 npc : Nat)
    (ho : o ≠ OP_STR_CAT ∧ o ≠ OP_STR_COPY ∧ o ≠ OP_READ_STR) (i : Nat)
    (hv : (vm.g_membuf i).type = MB_VOID) :
    ((run_op h vm io o opnd imm1 imm2 imm3 npc).2.1.g_membuf i).type =
      MB_VOID := by
  cases o
  case OP_NOP => exact hv
  case OP_HALT => exact hv
  case OP_JMP => exact hv
  case OP_JZ => exact hv
  case OP_JNZ => exact hv
  case OP_JLT => exact hv
  case OP_JGT => exact hv
  case OP_JLE => exact hv
  case OP_JGE => exact hv
  case OP_CALL =>
    show ((op_call vm imm1 npc).2.1.g_membuf i).type = MB_VOID
    rw [op_call_membuf]
    exact hv
  case OP_RET =>
    show ((op_ret vm npc).2.1.g_membuf i).type = MB_VOID
    rw [op_ret_membuf]
    exact hv
  case OP_LOAD_G =>
    show ((op_load_g vm opnd imm1).2.g_membuf i).type = MB_VOID
    rw [op_load_g_membuf]
    exact hv
  case OP_LOAD_L =>
    show ((op_load_l vm opnd imm1).2.g_membuf i).type = MB_VOID
    rw [op_load_l_membuf]
    exact hv
  case OP_LOAD_S =>
    show ((op_load_s vm opnd imm1).2.g_membuf i).type = MB_VOID
    rw [op_load_s_membuf]
    exact hv
  case OP_LOAD_I_I32 =>
    show ((op_load_imm vm opnd imm1 V_I32).2.g_membuf i).type = MB_VOID
    rw [op_load_imm_membuf]
    exact hv
  case OP_LOAD_I_U32 =>
    show ((op_load_imm vm opnd imm1 V_U32).2.g_membuf i).type = MB_VOID
    rw [op_load_imm_membuf]
    exact hv
  case OP_LOAD_I_F32 =>
    show ((op_load_imm vm opnd imm1 V_FLOAT).2.g_membuf i).type = MB_VOID
    rw [op_load_imm_membuf]
    exact hv
  case OP_LOAD_RET =>
    show ((op_load_ret vm opnd imm1).2.g_membuf i).type = MB_VOID
    rw [op_load_ret_membuf]
    exact hv
  case OP_STORE_G =>
    show ((op_store_g vm opnd imm1).2.g_membuf i).type = MB_VOID
    rw [op_store_g_membuf]
    exact hv
  case OP_STORE_L =>
    show ((op_store_l vm opnd imm1).2.g_membuf i).type = MB_VOID
    rw [op_store_l_membuf]
    exact hv
  case OP_STORE_S =>
    show ((op_store_s vm opnd imm1).2.g_membuf i).type = MB_VOID
    rw [op_store_s_membuf]
    exact hv
  case OP_STORE_RET =>
    show ((op_store_ret vm opnd imm1).2.g_membuf i).type = MB_VOID
    rw [op_store_ret_membuf]
    exact hv
  case OP_ADD_I32 =>
    show ((arith3 vm opnd imm1 imm2 _ _).2.g_membuf i).type = MB_VOID
    rw [arith3_membuf]
    exact hv
  case OP_SUB_I32 =>
    show ((arith3 vm opnd imm1 imm2 _ _).2.g_membuf i).type = MB_VOID
    rw [arith3_membuf]
    exact hv
  case OP_MUL_I32 =>
    show ((arith3 vm opnd imm1 imm2 _ _).2.g_membuf i).type = MB_VOID
    rw [arith3_membuf]
    exact hv
  case OP_DIV_I32 =>
    show ((arith3 vm opnd imm1 imm2 _ _).2.g_membuf i).type = MB_VOID
    rw [arith3_membuf]
    exact hv
  case OP_MOD_I32 =>
    show ((arith3 vm opnd imm1 imm2 _ _).2.g_membuf i).type = MB_VOID
    rw [arith3_membuf]
    exact hv
  case OP_NEG_I32 =>
    show ((arith2 vm opnd imm1 _ _).2.g_membuf i).type = MB_VOID
    rw [arith2_membuf]
    exact hv
  case OP_ADD_U32 =>
    show ((arith3 vm opnd imm1 imm2 _ _).2.g_membuf i).type = MB_VOID
    rw [arith3_membuf]
    exact hv
  case OP_SUB_U32 =>
    show ((arith3 vm opnd imm1 imm2 _ _).2.g_membuf i).type = MB_VOID
    rw [arith3_membuf]
    exact hv
  case OP_MUL_U32 =>
    show ((arith3 vm opnd imm1 imm2 _ _).2.g_membuf i).type = MB_VOID
    rw [arith3_membuf]
    exact hv
  case OP_DIV_U32 =>
    show ((arith3 vm opnd imm1 imm2 _ _).2.g_membuf i).type = MB_VOID
    rw [arith3_membuf]
    exact hv
  case OP_MOD_U32 =>
    show ((arith3 vm opnd imm1 imm2 _ _).2.g_membuf i).type = MB_VOID
    rw [arith3_membuf]
    exact hv
  case OP_ADD_F32 =>
    show ((arith3 vm opnd imm1 imm2 _ _).2.g_membuf i).type = MB_VOID
    rw [arith3_membuf]
    exact hv
  case OP_SUB_F32 =>
    show ((arith3 vm opnd imm1 imm2 _ _).2.g_membuf i).type = MB_VOID
    rw [arith3_membuf]
    exact hv
  case OP_MUL_F32 =>
    show ((arith3 vm opnd imm1 imm2 _ _).2.g_membuf i).type = MB_VOID
    rw [arith3_membuf]
    exact hv
  case OP_DIV_F32 =>
    show ((arith3 vm opnd imm1 imm2 _ _).2.g_membuf i).type = MB_VOID
    rw [arith3_membuf]
    exact hv
  case OP_NEG_F32 =>
    show ((arith2 vm opnd imm1 _ _).2.g_membuf i).type = MB_VOID
    rw [arith2_membuf]
    exact hv
  case OP_ABS_F32 =>
    show ((arith2 vm opnd imm1 _ _).2.g_membuf i).type = MB_VOID
    rw [arith2_membuf]
    exact hv
  case OP_SQRT_F32 =>
    show ((arith2 vm opnd imm1 _ _).2.g_membuf i).type = MB_VOID
    rw [arith2_membuf]
    exact hv
  case OP_AND_U32 =>
    show ((arith3 vm opnd imm1 imm2 _ _).2.g_membuf i).type = MB_VOID
    rw [arith3_membuf]
    exact hv
  case OP_OR_U32 =>
    show ((arith3 vm opnd imm1 imm2 _ _).2.g_membuf i).type = MB_VOID
    rw [arith3_membuf]
    exact hv
  case OP_XOR_U32 =>
    show ((arith3 vm opnd imm1 imm2 _ _).2.g_membuf i).type = MB_VOID
    rw [arith3_membuf]
    exact hv
  case OP_NOT_U32 =>
    show ((arith2 vm opnd imm1 _ _).2.g_membuf i).type = MB_VOID
    rw [arith2_membuf]
    exact hv
  case OP_SHL_U32 =>
    show ((arith3 vm opnd imm1 imm2 _ _).2.g_membuf i).type = MB_VOID
    rw [arith3_membuf]
    exact hv
  case OP_SHR_U32 =>
    show ((arith3 vm opnd imm1 imm2 _ _).2.g_membuf i).type = MB_VOID
    rw [arith3_membuf]
    exact hv
  case OP_CMP_I32 =>
    show ((cmp2 vm imm1 imm2 _ _).2.g_membuf i).type = MB_VOID
    rw [cmp2_membuf]
    exact hv
  case OP_CMP_U32 =>
    show ((cmp2 vm imm1 imm2 _ _).2.g_membuf i).type = MB_VOID
    rw [cmp2_membuf]
    exact hv
  case OP_CMP_F32 =>
    show ((cmp2 vm imm1 imm2 _ _).2.g_membuf i).type = MB_VOID
    rw [cmp2_membuf]
    exact hv
  case OP_I32_TO_U32 =>
    show ((arith2 vm opnd imm1 _ _).2.g_membuf i).type = MB_VOID
    rw [arith2_membuf]
    exact hv
  case OP_U32_TO_I32 =>
    show ((arith2 vm opnd imm1 _ _).2.g_membuf i).type = MB_VOID
    rw [arith2_membuf]
    exact hv
  case OP_I32_TO_F32 =>
    show ((arith2 vm opnd imm1 _ _).2.g_membuf i).type = MB_VOID
    rw [arith2_membuf]
    exact hv
  case OP_U32_TO_F32 =>
    show ((arith2 vm opnd imm1 _ _).2.g_membuf i).type = MB_VOID
    rw [arith2_membuf]
    exact hv
  case OP_F32_TO_I32 =>
    show ((arith2 vm opnd imm1 _ _).2.g_membuf i).type = MB_VOID
    rw [arith2_membuf]
    exact hv
  case OP_F32_TO_U32 =>
    show ((arith2 vm opnd imm1 _ _).2.g_membuf i).type = MB_VOID
    rw [arith2_membuf]
    exact hv
  case OP_BUF_READ =>
    show ((op_buf_read vm opnd imm1 imm2).2.g_membuf i).type = MB_VOID
    rw [op_buf_read_membuf]
    exact hv
  case OP_BUF_WRITE =>
    show ((op_buf_write vm opnd imm1 imm2).2.g_membuf i).type = MB_VOID
    rw [op_buf_write_types]
    exact hv
  case OP_BUF_LEN =>
    show ((op_buf_len vm opnd imm1).2.g_membuf i).type = MB_VOID
    rw [op_buf_len_membuf]
    exact hv
  case OP_BUF_CLEAR =>
    show ((op_buf_clear vm imm1).2.g_membuf i).type = MB_VOID
    rw [op_buf_clear_types]
    exact hv
  case OP_STR_CAT => exact absurd rfl ho.1
  case OP_STR_COPY => exact absurd rfl ho.2.1
  case OP_STR_LEN =>
    show ((op_str_len vm opnd imm1).2.g_membuf i).type = MB_VOID
    rw [op_str_len_membuf]
    exact hv
  case OP_STR_CMP =>
    show ((op_str_cmp vm imm1 imm2).2.g_membuf i).type = MB_VOID
    rw [op_str_cmp_membuf]
    exact hv
  case OP_STR_CHR =>
    show ((op_str_chr vm opnd imm1 imm2).2.g_membuf i).type = MB_VOID
    rw [op_str_chr_membuf]
    exact hv
  case OP_STR_SET_CHR =>
    show ((op_str_set_chr vm imm1 imm2 imm3).2.g_membuf i).type = MB_VOID
    rw [op_str_set_chr_types]
    exact hv
  case OP_PRINT_I32 =>
    show ((op_print_var vm io imm1 _ _).2.1.g_membuf i).type = MB_VOID
    rw [op_print_var_membuf]
    exact hv
  case OP_PRINT_U32 =>
    show ((op_print_var vm io imm1 _ _).2.1.g_membuf i).type = MB_VOID
    rw [op_print_var_membuf]
    exact hv
  case OP_PRINT_F32 =>
    show ((op_print_var vm io imm1 _ _).2.1.g_membuf i).type = MB_VOID
    rw [op_print_var_membuf]
    exact hv
  case OP_PRINT_STR =>
    show ((op_print_str vm io imm1).2.1.g_membuf i).type = MB_VOID
    rw [op_print_str_membuf]
    exact hv
  case OP_PRINTLN => exact hv
  case OP_READ_I32 =>
    show ((op_read_var vm io opnd _ V_I32).2.1.g_membuf i).type = MB_VOID
    rw [op_read_var_membuf]
    exact hv
  case OP_READ_U32 =>
    show ((op_read_var vm io opnd _ V_U32).2.1.g_membuf i).type = MB_VOID
    rw [op_read_var_membuf]
    exact hv
  case OP_READ_F32 =>
    show ((op_read_var vm io opnd _ V_FLOAT).2.1.g_membuf i).type = MB_VOID
    rw [op_read_var_membuf]
    exact hv
  case OP_READ_STR => exact absurd rfl ho.2.2
  case OP_UNKNOWN => exact hv

theorem commit_void (vm : vm_state_t)
    (r : vm_status_t × vm_state_t × StdStreams × Nat) (i : Nat)
    (hr : ((r.2.1).g_membuf i).type = MB_VOID) :
    (({ (if r.1 = VM_OK then { r.2.1 with pc := r.2.2.2 } else r.2.1) with
      last_error := r.1 }).g_membuf i).type = MB_VOID := by
  split
  · exact hr
  · exact hr

/-- `vm_step` keeps a void buffer void unless the fetched opcode dispatches
to `STR_CAT`, `STR_COPY` or `READ_STR`. -/
theorem vm_step_void_membuf (h : HostOps) (vm : vm_state_t) (io : StdStreams)
    (i : Nat) (hv : (vm.g_membuf i).type = MB_VOID)
    (ho : decode_opcode (vm.program vm.pc) ≠ OP_STR_CAT ∧
      decode_opcode (vm.program vm.pc) ≠ OP_STR_COPY ∧
      decode_opcode (vm.program vm.pc) ≠ OP_READ_STR) :
    ((vm_step h vm io).2.1.g_membuf i).type = MB_VOID := by
  unfold vm_step
  split
  · exact hv
  · dsimp only
    split
    · exact hv
    · exact commit_void vm _ i (run_op_void_membuf h vm io _ _ _ _ _ _ ho i hv)

/-- Claim C10: `READ_STR` with a valid buffer index always succeeds and
unconditionally retags the buffer `U8` before filling it — whatever the
previous tag, void included — and never returns `TYPE_MISMATCH` for any
index; `BUF_WRITE` rejects void buffers with `TYPE_MISMATCH`; and a void
buffer can only acquire a tag through an instruction dispatching to
`STR_CAT`, `STR_COPY` or `READ_STR`. -/
theorem c10_read_str_retag_void_buffers (h : HostOps) (vm : vm_state_t)
    (io : StdStreams) :
    (∀ imm1, imm1 < G_MEMBUF_COUNT →
      (op_read_str vm io imm1).1 = VM_OK ∧
      ((op_read_str vm io imm1).2.1.g_membuf imm1).type = MB_U8) ∧
    (∀ imm1, (op_read_str vm io imm1).1 ≠ VM_ERR_TYPE_MISMATCH) ∧
    (∀ opnd imm1 imm2, opnd < STACK_VAR_COUNT → imm1 < G_MEMBUF_COUNT →
      (vm.g_membuf imm1).type = MB_VOID →
      (op_buf_write vm opnd imm1 imm2).1 = VM_ERR_TYPE_MISMATCH) ∧
    (∀ i, (vm.g_membuf i).type = MB_VOID →
      ((vm_step h vm io).2.1.g_membuf i).type ≠ MB_VOID →
      decode_opcode (vm.program vm.pc) = OP_STR_CAT ∨
      decode_opcode (vm.program vm.pc) = OP_STR_COPY ∨
      decode_opcode (vm.program vm.pc) = OP_READ_STR) := by
  refine ⟨fun imm1 hlt => ⟨?_, ?_⟩, fun imm1 => ?_, fun opnd imm1 imm2 hop hlt hv => ?_, fun i hv hne => ?_⟩
  · simp [op_read_str, validate_buffer_idx, hlt]
  · simp only [op_read_str, validate_buffer_idx]
    rw [if_neg (by simp [hlt])]
    dsimp only
    rw [buf_set_byte_type, read_str_loop_type]
    simp [Function.update_apply]
  · unfold op_read_str
    split
    · simp
    · simp
  · simp [op_buf_write, get_stack_var, hop, validate_buffer_idx, hlt, hv]
  · by_contra hall
    push_neg at hall
    exact hne (vm_step_void_membuf h vm io i hv hall)

/-- `STR_CAT` of U8 buffers 1 and 2 into the still-void buffer 0. -/
def c10_vm : vm_state_t :=
  set_membuf
    (set_membuf
      (vm_load_program vm_init [0x90, 0, 2, 0, 1, 0, 0, 0, 2, 0, 0, 0]).2
      1 ⟨MB_U8, fun _ => 0⟩)
    2 ⟨MB_U8, fun _ => 0⟩

/-- Witness for C10 at concrete inputs: `READ_STR` into the void buffer 3
succeeds and leaves it tagged `U8`; `READ_STR` with index 300 is not a type
mismatch; `BUF_WRITE` to void buffer 3 is a type mismatch; and the one
concrete step that does retag a void buffer is a `STR_CAT`. -/
theorem c10_read_str_retag_void_buffers_witness :
    ((op_read_str vm_init ⟨[72, 10], []⟩ 3).1 = VM_OK ∧
      ((op_read_str vm_init ⟨[72, 10], []⟩ 3).2.1.g_membuf 3).type = MB_U8) ∧
    (op_read_str vm_init ⟨[], []⟩ 300).1 ≠ VM_ERR_TYPE_MISMATCH ∧
    (op_buf_write vm_init 0 3 0).1 = VM_ERR_TYPE_MISMATCH ∧
    (decode_opcode (c10_vm.program c10_vm.pc) = OP_STR_CAT ∨
      decode_opcode (c10_vm.program c10_vm.pc) = OP_STR_COPY ∨
      decode_opcode (c10_vm.program c10_vm.pc) = OP_READ_STR) :=
  ⟨(c10_read_str_retag_void_buffers hostZero vm_init ⟨[72, 10], []⟩).1 3
      (by decide),
   (c10_read_str_retag_void_buffers hostZero vm_init ⟨[], []⟩).2.1 300,
   (c10_read_str_retag_void_buffers hostZero vm_init ⟨[], []⟩).2.2.1 0 3 0
      (by decide) (by decide) (by decide),
   (c10_read_str_retag_void_buffers hostZero c10_vm ⟨[], []⟩).2.2.2 0
      (by decide) (by decide)⟩
